import Mathlib

/-!
Verification development for the zeki-oroto-cli repository.

Python values are shallowly embedded as follows: Python `str` becomes
`List Char` (Python string length counts code points, matching
`List.length`), Python `bytes` becomes `List Nat` with every element
below 256, Python dict results become Lean structures whose fields carry
the dict keys, filesystem state becomes an association list from
resolved absolute paths (lists of components) to entries, and fallible
operations return `Except`/`Option` or an explicit error field exactly
where the source stores one in its result dict.
-/

namespace Oroto

/-- Coercion from a Lean string literal to the `List Char` representation
used for embedded Python strings. -/
def pstr (s : String) : List Char :=
  s.data

/-- Boolean prefix test on lists over a decidable type, used to embed
`str.startswith` and `Path.relative_to` containment checks. -/
def isPrefixL {α : Type} [DecidableEq α] : List α → List α → Bool
  | [], _ => true
  | _ :: _, [] => false
  | a :: as, b :: bs => decide (a = b) && isPrefixL as bs

/-- Boolean substring test embedding Python's `needle in haystack` for
strings. -/
def containsSub (needle : List Char) : List Char → Bool
  | [] => needle.isEmpty
  | c :: t => isPrefixL needle (c :: t) || containsSub needle t

/-- Splitting a character list at every occurrence of a separator,
embedding Python's `str.split(sep)` for a one-character separator. -/
def splitOnChar (sep : Char) : List Char → List (List Char)
  | [] => [[]]
  | c :: rest =>
    let r := splitOnChar sep rest
    if c = sep then [] :: r
    else
      match r with
      | [] => [[c]]
      | g :: gs => (c :: g) :: gs

/-- Joining a list of character lists with a separator, embedding
Python's `sep.join(parts)`. -/
def joinSep (sep : List Char) : List (List Char) → List Char
  | [] => []
  | [x] => x
  | x :: y :: xs => x ++ sep ++ joinSep sep (y :: xs)

/-- ASCII lower-casing of an embedded string, matching Python
`str.lower()` on the ASCII inputs the code compares against. -/
def toLowerP (s : List Char) : List Char :=
  s.map Char.toLower

/-- Python whitespace characters recognised by `str.strip()` and
`str.split()` with no argument. -/
def isPyWs (c : Char) : Bool :=
  c = ' ' || c = '\t' || c = '\n' || c = '\x0d' || c = '\x0b' || c = '\x0c'

/-- Embedding of Python `str.strip()` (default whitespace stripping). -/
def pyStrip (s : List Char) : List Char :=
  ((s.dropWhile isPyWs).reverse.dropWhile isPyWs).reverse

/-- First whitespace-delimited token of a string: `s.split()[0]` for a
string whose stripped form is non-empty. -/
def firstToken (s : List Char) : List Char :=
  (s.dropWhile isPyWs).takeWhile (fun c => !isPyWs c)

/-- Lookup in an association list, embedding Python dict access. -/
def alistFind {κ β : Type} [DecidableEq κ] : List (κ × β) → κ → Option β
  | [], _ => none
  | (k, v) :: rest, key => if k = key then some v else alistFind rest key

/-- Insertion/overwrite in an association list, embedding Python dict
assignment. -/
def alistSet {κ β : Type} [DecidableEq κ] : List (κ × β) → κ → β → List (κ × β)
  | [], key, v => [(key, v)]
  | (k, v0) :: rest, key, v =>
    if k = key then (key, v) :: rest else (k, v0) :: alistSet rest key v

theorem alistFind_alistSet_self {κ β : Type} [DecidableEq κ]
    (l : List (κ × β)) (k : κ) (v : β) :
    alistFind (alistSet l k v) k = some v := by
  induction l with
  | nil => simp [alistFind, alistSet]
  | cons hd tl ih =>
    obtain ⟨k0, v0⟩ := hd
    by_cases h : k0 = k
    · simp [alistFind, alistSet, h]
    · simp [alistFind, alistSet, h, ih]

theorem alistFind_alistSet_ne {κ β : Type} [DecidableEq κ]
    (l : List (κ × β)) (k k' : κ) (v : β) (h : k' ≠ k) :
    alistFind (alistSet l k v) k' = alistFind l k' := by
  induction l with
  | nil =>
    have hne : ¬ (k = k') := fun hh => h hh.symm
    simp [alistFind, alistSet, hne]
  | cons hd tl ih =>
    obtain ⟨k0, v0⟩ := hd
    by_cases hk : k0 = k
    · subst hk
      have hne : ¬ (k0 = k') := fun hh => h hh.symm
      simp [alistFind, alistSet, hne]
    · simp [alistFind, alistSet, hk, ih]

theorem isPrefixL_append_self {α : Type} [DecidableEq α] (l t : List α) :
    isPrefixL l (l ++ t) = true := by
  induction l with
  | nil => simp [isPrefixL]
  | cons a as ih => simp [isPrefixL, ih]

theorem containsSub_cons (n : List Char) (c : Char) (t : List Char) :
    containsSub n (c :: t) = (isPrefixL n (c :: t) || containsSub n t) :=
  rfl

theorem containsSub_of_parts (pre n suf : List Char) :
    containsSub n (pre ++ (n ++ suf)) = true := by
  induction pre with
  | nil =>
    simp only [List.nil_append]
    cases hns : n ++ suf with
    | nil =>
      have hne : n = [] := by
        cases n with
        | nil => rfl
        | cons a as => simp at hns
      subst hne
      simp [containsSub]
    | cons c t =>
      rw [containsSub_cons, ← hns, isPrefixL_append_self]
      simp
  | cons c pre ih =>
    rw [List.cons_append, containsSub_cons, ih]
    simp

/-! ## Task/Helper utility library (`src/thinking_python.py`) -/

/-- Embedding of `break_down_task(task_description, num_steps=5)` from
`src/thinking_python.py` lines 11-38: keyword-triggered canned five-step
plans for create/build and modify/update descriptions, otherwise
`num_steps` generic placeholder labels, the final list sliced with
`steps[:num_steps]`. -/
def break_down_task (task_description : List Char) (num_steps : Nat) : List (List Char) :=
  let d := toLowerP task_description
  let steps :=
    if containsSub (pstr ("create")) d || containsSub (pstr ("build")) d then
      [pstr ("Plan the architecture and structure"),
       pstr ("Set up the basic framework"),
       pstr ("Implement core functionality"),
       pstr ("Add error handling and validation"),
       pstr ("Test and refine")]
    else if containsSub (pstr ("modify")) d || containsSub (pstr ("update")) d then
      [pstr ("Analyze current implementation"),
       pstr ("Plan the modifications"),
       pstr ("Implement changes"),
       pstr ("Test modifications"),
       pstr ("Verify and finalize")]
    else
      (List.range num_steps).map (fun i => pstr ("Step ") ++ (Nat.repr (i + 1)).data)
  steps.take num_steps

/-- First ten lines of a context joined back with newlines: the embedding
of the two source lines `lines = context.split('\n')` and
`header = '\n'.join(lines[:10])` in
`prevent_hallucination_in_long_tasks`. -/
def firstTenLines (context : List Char) : List Char :=
  joinSep (pstr ("\n")) ((splitOnChar '\n' context).take 10)

/-- Literal separator block surrounding the truncation marker emitted by
`prevent_hallucination_in_long_tasks`. -/
def truncation_marker_block : List Char :=
  pstr ("\n\n[... earlier steps truncated for brevity ...]\n\n")

/-- Embedding of `context[-n:]` for `n > 0`: the last `n` characters (the
whole string when `n` is at least its length). -/
def takeRight (s : List Char) (n : Nat) : List Char :=
  s.drop (s.length - n)

/-- Embedding of `prevent_hallucination_in_long_tasks(context,
max_context_length=8000)` from `src/thinking_python.py` lines 533-561:
a context that fits is returned unchanged; otherwise the first ten lines
become a header, a 100-character buffer is reserved, the fitting tail is
appended after a literal truncation marker, and if even the header does
not fit it is hard-truncated to `max_context_length`. -/
def prevent_hallucination_in_long_tasks (context : List Char) (max_context_length : Nat) : List Char :=
  if context.length ≤ max_context_length then context
  else
    let header := firstTenLines context
    if header.length + 100 < max_context_length then
      let remaining_space := max_context_length - header.length - 100
      header ++ truncation_marker_block ++ takeRight context remaining_space
    else
      header.take max_context_length

/-! ## Theorems for claims C6 and C7 -/

/-- Claim C6 counterexample: `break_down_task` does not always return
exactly `num_steps` entries — for the description "create a web app"
(which triggers the canned five-step create/build plan) and the positive
step count 8 it returns only 5 entries. -/
theorem break_down_task_length_counterexample :
    (break_down_task (pstr ("create a web app")) 8).length = 5 ∧ (5 : Nat) ≠ 8 := by
  constructor
  · decide
  · decide

/-- Claim C6 (amended): `break_down_task` returns exactly `num_steps`
entries when no create/build/modify/update keyword occurs in the
lower-cased description; when such a keyword occurs it returns the
canned five-step plan sliced to `min num_steps 5` entries, so the length
is exactly `num_steps` only when `num_steps ≤ 5`. -/
theorem break_down_task_length (task_description : List Char) (num_steps : Nat) :
    (break_down_task task_description num_steps).length =
      (if containsSub (pstr ("create")) (toLowerP task_description)
          || containsSub (pstr ("build")) (toLowerP task_description) then
        min num_steps 5
      else if containsSub (pstr ("modify")) (toLowerP task_description)
          || containsSub (pstr ("update")) (toLowerP task_description) then
        min num_steps 5
      else num_steps) := by
  by_cases h1 : (containsSub (pstr ("create")) (toLowerP task_description)
      || containsSub (pstr ("build")) (toLowerP task_description)) = true
  · simp [break_down_task, h1, List.length_take]
  · by_cases h2 : (containsSub (pstr ("modify")) (toLowerP task_description)
        || containsSub (pstr ("update")) (toLowerP task_description)) = true
    · simp [break_down_task, h1, h2, List.length_take]
    · simp [break_down_task, h1, h2, List.length_take, List.length_map, List.length_range]

set_option maxRecDepth 8192 in
/-- Claim C7 counterexample: for a 120-character single-line context and
`max_context_length = 110`, the context is longer than the budget but
the returned string does not start with the context's original first 10
lines (the header itself is hard-truncated), contradicting the claim's
unconditional "starts with the context's original first 10 lines". -/
theorem prevent_hallucination_header_counterexample :
    110 < (List.replicate 120 'a').length ∧
    isPrefixL (firstTenLines (List.replicate 120 'a'))
      (prevent_hallucination_in_long_tasks (List.replicate 120 'a') 110) = false := by
  constructor
  · decide
  · decide

/-- Claim C7 (amended): a context of length at most `max_context_length`
is returned unchanged; a longer context whose ten-line header plus the
100-character reserve fits the budget yields a string starting with that
header, containing the literal truncation marker, of length at most
`max_context_length` plus the marker-block overhead; a longer context
whose header does not fit yields the header hard-truncated to
`max_context_length` (a prefix of the first ten lines, within budget). -/
theorem prevent_hallucination_trimming (context : List Char) (max_context_length : Nat) :
    (context.length ≤ max_context_length →
      prevent_hallucination_in_long_tasks context max_context_length = context) ∧
    (max_context_length < context.length →
      (firstTenLines context).length + 100 < max_context_length →
      isPrefixL (firstTenLines context)
          (prevent_hallucination_in_long_tasks context max_context_length) = true ∧
        containsSub (pstr ("earlier steps truncated for brevity"))
          (prevent_hallucination_in_long_tasks context max_context_length) = true ∧
        (prevent_hallucination_in_long_tasks context max_context_length).length ≤
          max_context_length + truncation_marker_block.length) ∧
    (max_context_length < context.length →
      max_context_length ≤ (firstTenLines context).length + 100 →
      prevent_hallucination_in_long_tasks context max_context_length =
        (firstTenLines context).take max_context_length ∧
      (prevent_hallucination_in_long_tasks context max_context_length).length ≤
        max_context_length + truncation_marker_block.length) := by
  refine ⟨?_, ?_, ?_⟩
  · intro h
    simp [prevent_hallucination_in_long_tasks, h]
  · intro hlong hfit
    have hnot : ¬ context.length ≤ max_context_length := by omega
    unfold prevent_hallucination_in_long_tasks
    rw [if_neg hnot]
    simp only []
    rw [if_pos hfit]
    refine ⟨?_, ?_, ?_⟩
    · rw [List.append_assoc]
      exact isPrefixL_append_self _ _
    · have hm : truncation_marker_block =
          pstr ("\n\n[... ") ++
            (pstr ("earlier steps truncated for brevity") ++ pstr (" ...]\n\n")) := by
        decide
      rw [hm]
      have hc := containsSub_of_parts
        (firstTenLines context ++ pstr ("\n\n[... "))
        (pstr ("earlier steps truncated for brevity"))
        (pstr (" ...]\n\n") ++
          takeRight context (max_context_length - (firstTenLines context).length - 100))
      calc containsSub (pstr ("earlier steps truncated for brevity"))
            (firstTenLines context ++
              (pstr ("\n\n[... ") ++
                (pstr ("earlier steps truncated for brevity") ++ pstr (" ...]\n\n"))) ++
              takeRight context (max_context_length - (firstTenLines context).length - 100))
          = containsSub (pstr ("earlier steps truncated for brevity"))
            ((firstTenLines context ++ pstr ("\n\n[... ")) ++
              (pstr ("earlier steps truncated for brevity") ++
                (pstr (" ...]\n\n") ++
                  takeRight context
                    (max_context_length - (firstTenLines context).length - 100)))) := by
            simp [List.append_assoc]
        _ = true := hc
    · simp only [List.length_append, takeRight, List.length_drop]
      omega
  · intro hlong hnofit
    have hnot : ¬ context.length ≤ max_context_length := by omega
    have hnf : ¬ ((firstTenLines context).length + 100 < max_context_length) := by omega
    unfold prevent_hallucination_in_long_tasks
    rw [if_neg hnot]
    simp only []
    rw [if_neg hnf]
    refine ⟨rfl, ?_⟩
    simp only [List.length_take]
    omega

set_option maxRecDepth 8192 in
/-- Claim C7 witness: the amended trimming theorem applied at three
concrete inputs, one per branch — a short context returned unchanged, a
long context with a small ten-line header (marker branch), and a long
single-line context whose header is hard-truncated. -/
theorem prevent_hallucination_trimming_witness :
    prevent_hallucination_in_long_tasks (pstr ("hello")) 100 = pstr ("hello") ∧
    (isPrefixL (firstTenLines (pstr ("a\nb\nc\nd\ne\nf\ng\nh\ni\nj\n") ++ List.replicate 130 'c'))
        (prevent_hallucination_in_long_tasks
          (pstr ("a\nb\nc\nd\ne\nf\ng\nh\ni\nj\n") ++ List.replicate 130 'c') 140) = true ∧
      containsSub (pstr ("earlier steps truncated for brevity"))
        (prevent_hallucination_in_long_tasks
          (pstr ("a\nb\nc\nd\ne\nf\ng\nh\ni\nj\n") ++ List.replicate 130 'c') 140) = true ∧
      (prevent_hallucination_in_long_tasks
        (pstr ("a\nb\nc\nd\ne\nf\ng\nh\ni\nj\n") ++ List.replicate 130 'c') 140).length ≤
        140 + truncation_marker_block.length) ∧
    (prevent_hallucination_in_long_tasks (List.replicate 120 'a') 110 =
        (firstTenLines (List.replicate 120 'a')).take 110 ∧
      (prevent_hallucination_in_long_tasks (List.replicate 120 'a') 110).length ≤
        110 + truncation_marker_block.length) :=
  ⟨(prevent_hallucination_trimming (pstr ("hello")) 100).1 (by decide),
    (prevent_hallucination_trimming
      (pstr ("a\nb\nc\nd\ne\nf\ng\nh\ni\nj\n") ++ List.replicate 130 'c') 140).2.1
      (by decide) (by decide),
    (prevent_hallucination_trimming (List.replicate 120 'a') 110).2.2
      (by decide) (by decide)⟩

/-! ## Path and filesystem model

Paths follow `pathlib`: a path string parses into an absolute flag plus
components; `resolve()` is lexical normalisation of `.` and `..` against
the current working directory (symbolic links are outside the model).
The filesystem is an association list from resolved absolute paths to
entries. -/

/-- Path component: an embedded Python string. -/
abbrev PName := List Char

/-- Resolved absolute path: list of components from the root. -/
abbrev AbsPath := List PName

/-- Parsed (possibly relative) path, as produced by `Path(s)`. -/
structure PyPath where
  absolute : Bool
  comps : List PName
deriving DecidableEq

/-- Parsing a path string: leading `/` marks it absolute; empty
components (from doubled or trailing slashes) are dropped, as `pathlib`
does. -/
def parsePath (s : List Char) : PyPath :=
  ⟨decide (s.head? = some '/'), (splitOnChar '/' s).filter (fun c => !c.isEmpty)⟩

/-- One step of lexical path normalisation: `.` is dropped, `..` pops the
last component (staying at the root when already there), anything else
is appended. -/
def normStep (acc : List PName) (c : PName) : List PName :=
  if c = pstr (".") then acc
  else if c = pstr ("..") then acc.dropLast
  else acc ++ [c]

/-- Embedding of `Path(p).resolve()` (equally of `(cwd / p).resolve()`):
an absolute path restarts at the root, a relative one extends the
current working directory, and components are normalised in order. -/
def joinResolve (cwd : AbsPath) (p : PyPath) : AbsPath :=
  p.comps.foldl normStep (if p.absolute then [] else cwd)

/-- Embedding of the `target.relative_to(base)` containment test used by
every sandbox check: it succeeds exactly when `base`'s components are a
prefix of `target`'s (equality included). -/
def isWithin (cwd target : AbsPath) : Bool :=
  isPrefixL cwd target

/-- Filesystem entry: a text file with content, or a directory. -/
inductive FsEntry where
  | file (content : List Char)
  | dir
deriving DecidableEq

/-- Filesystem state: association list from resolved absolute paths to
entries. -/
abbrev Fs := List (AbsPath × FsEntry)

/-- Lookup of a path in the filesystem. -/
def fsFind (fs : Fs) (p : AbsPath) : Option FsEntry :=
  alistFind fs p

/-- Create or overwrite an entry. -/
def fsSet (fs : Fs) (p : AbsPath) (e : FsEntry) : Fs :=
  alistSet fs p e

/-- Remove a single entry (`Path.unlink` / `Path.rmdir`). -/
def fsRemove (fs : Fs) (p : AbsPath) : Fs :=
  fs.filter (fun ke => !decide (ke.1 = p))

/-- Remove an entry and its whole subtree (`shutil.rmtree`). -/
def fsRemoveTree (fs : Fs) (p : AbsPath) : Fs :=
  fs.filter (fun ke => !isPrefixL p ke.1)

/-- Whether a path names an existing regular file. -/
def isFileAt (fs : Fs) (p : AbsPath) : Bool :=
  match fsFind fs p with
  | some (FsEntry.file _) => true
  | _ => false

/-- Whether a path names an existing directory. -/
def isDirAt (fs : Fs) (p : AbsPath) : Bool :=
  match fsFind fs p with
  | some FsEntry.dir => true
  | _ => false

/-- Whether a path exists at all (`Path.exists`). -/
def existsAt (fs : Fs) (p : AbsPath) : Bool :=
  (fsFind fs p).isSome

/-- All prefixes of a list, shortest first, the list itself included. -/
def prefixesOf {α : Type} : List α → List (List α)
  | [] => [[]]
  | a :: rest => [] :: (prefixesOf rest).map (a :: ·)

/-- One `mkdir(exist_ok=True)` step for a single path level: an existing
directory is fine, an existing file is an error, a missing entry becomes
a directory. -/
def mkdirOne (fs : Fs) (q : AbsPath) : Option Fs :=
  match fsFind fs q with
  | some (FsEntry.file _) => none
  | some FsEntry.dir => some fs
  | none => some (fsSet fs q FsEntry.dir)

/-- Sequential directory creation over a list of paths, failing when any
level is an existing regular file. -/
def mkdirSeq : Fs → List AbsPath → Option Fs
  | fs, [] => some fs
  | fs, q :: qs =>
    match mkdirOne fs q with
    | none => none
    | some fs1 => mkdirSeq fs1 qs

/-- Embedding of `Path.mkdir(parents=True, exist_ok=True)`: every level
from the root down to the path is created as needed; a regular file at
any level raises, which the callers catch into their error field. -/
def mkdirParents (fs : Fs) (p : AbsPath) : Option Fs :=
  mkdirSeq fs (prefixesOf p)

/-- Embedding of `Path.mkdir(exist_ok=True)` without `parents`: the
parent must already exist as a directory. -/
def mkdirPlain (fs : Fs) (p : AbsPath) : Option Fs :=
  match fsFind fs p with
  | some FsEntry.dir => some fs
  | some (FsEntry.file _) => none
  | none =>
    match fsFind fs p.dropLast with
    | some FsEntry.dir => some (fsSet fs p FsEntry.dir)
    | _ => none

/-- Immediate children of a directory path: entries one level below it,
paired with their final name component. -/
def childrenOf (fs : Fs) (p : AbsPath) : List (PName × FsEntry) :=
  fs.filterMap (fun ke =>
    if decide (ke.1.length = p.length + 1) && isPrefixL p ke.1 then
      some (ke.1.getLastD [], ke.2)
    else none)

/-- UTF-8 byte length of an embedded string, matching `len(s.encode())`
and `stat().st_size` for text files. -/
def utf8Len (s : List Char) : Nat :=
  s.foldl (fun n c => n + c.utf8Size) 0

/-! ## Filesystem command module (`src/zeki-oroto-cli/commands.py`) -/

/-- Literal access-denied message shared by the sandboxed operations. -/
def access_denied_message : List Char :=
  pstr ("Access denied: Path outside project directory")

/-- Result dict of `list_directory`. -/
structure ListDirectoryResult where
  success : Bool
  path : List Char
  files : List (PName × Nat × List Char)
  folders : List (PName × List Char)
  error : Option (List Char)
deriving DecidableEq

/-- Rendering of `str(item.relative_to(Path.cwd()))`. -/
def renderRel (cwd : AbsPath) (p : AbsPath) : List Char :=
  joinSep (pstr ("/")) (p.drop cwd.length)

/-- Embedding of `list_directory(path=".")` from
`src/zeki-oroto-cli/commands.py` lines 27-82: sandbox check, existence
and directory checks, then the children split into files (with sizes and
relative paths) and folders. -/
def list_directory (cwd : AbsPath) (fs : Fs) (path : List Char) : ListDirectoryResult :=
  let base : ListDirectoryResult := ⟨false, path, [], [], none⟩
  let target := joinResolve cwd (parsePath path)
  if ¬ isWithin cwd target then { base with error := some access_denied_message }
  else
    match fsFind fs target with
    | none => { base with error := some (pstr ("Path not found: ") ++ path) }
    | some (FsEntry.file _) => { base with error := some (pstr ("Not a directory: ") ++ path) }
    | some FsEntry.dir =>
      let kids := childrenOf fs target
      { base with
        success := true
        files := kids.filterMap (fun ke =>
          match ke.2 with
          | FsEntry.file content => some (ke.1, utf8Len content, renderRel cwd (target ++ [ke.1]))
          | FsEntry.dir => none)
        folders := kids.filterMap (fun ke =>
          match ke.2 with
          | FsEntry.dir => some (ke.1, renderRel cwd (target ++ [ke.1]))
          | FsEntry.file _ => none) }

/-- Lines of a file as Python file iteration plus `rstrip('\n')` yields
them: split at newlines, with a trailing newline producing no extra
empty line and an empty file producing no lines. -/
def pyFileLines (content : List Char) : List (List Char) :=
  if content.isEmpty then []
  else
    let parts := splitOnChar '\n' content
    if content.getLast? = some '\n' then parts.dropLast else parts

/-- Result dict of `read_file`. -/
structure ReadFileResult where
  success : Bool
  file : List Char
  content : Option (List Char)
  lines : Nat
  truncated : Bool
  error : Option (List Char)
deriving DecidableEq

/-- Embedding of `read_file(file_path, max_lines=None)` from
`src/zeki-oroto-cli/commands.py` lines 85-142: sandbox check, existence
and file checks, then either the whole content or the first `max_lines`
lines with a truncation flag (`if max_lines:` treats `None` and `0`
alike). -/
def read_file (cwd : AbsPath) (fs : Fs) (file_path : List Char) (max_lines : Option Nat) : ReadFileResult :=
  let base : ReadFileResult := ⟨false, file_path, none, 0, false, none⟩
  let target := joinResolve cwd (parsePath file_path)
  if ¬ isWithin cwd target then { base with error := some access_denied_message }
  else
    match fsFind fs target with
    | none => { base with error := some (pstr ("File not found: ") ++ file_path) }
    | some FsEntry.dir => { base with error := some (pstr ("Not a file: ") ++ file_path) }
    | some (FsEntry.file raw) =>
      let ml := match max_lines with
        | some m => if m = 0 then none else some m
        | none => none
      match ml with
      | some m =>
        let ls := pyFileLines raw
        let contentV := joinSep (pstr ("\n")) (ls.take m)
        { base with
          success := true
          content := some contentV
          truncated := decide (m < ls.length)
          lines := (splitOnChar '\n' contentV).length }
      | none =>
        { base with
          success := true
          content := some raw
          lines := (splitOnChar '\n' raw).length }

/-- Result dict of `write_file`. -/
structure WriteFileResult where
  success : Bool
  file : List Char
  bytes_written : Nat
  error : Option (List Char)
deriving DecidableEq

/-- Embedding of `write_file(file_path, content, create_dirs=True)` from
`src/zeki-oroto-cli/commands.py` lines 145-188: sandbox check, optional
parent creation, then an unconditional overwrite reporting the UTF-8
byte count; `open(..., 'w')` failures (target is a directory, parent
missing) land in the error field. -/
def write_file (cwd : AbsPath) (fs : Fs) (file_path content : List Char) (create_dirs : Bool) : WriteFileResult × Fs :=
  let base : WriteFileResult := ⟨false, file_path, 0, none⟩
  let target := joinResolve cwd (parsePath file_path)
  if ¬ isWithin cwd target then ({ base with error := some access_denied_message }, fs)
  else
    match (if create_dirs then mkdirParents fs target.dropLast else some fs) with
    | none => ({ base with error := some (pstr ("mkdir failed: ancestor is not a directory")) }, fs)
    | some fs1 =>
      if isDirAt fs1 target then
        ({ base with error := some (pstr ("Is a directory: ") ++ file_path) }, fs1)
      else if ¬ isDirAt fs1 target.dropLast then
        ({ base with error := some (pstr ("No such file or directory: ") ++ file_path) }, fs1)
      else
        ({ base with success := true, bytes_written := utf8Len content },
          fsSet fs1 target (FsEntry.file content))

/-- Result dict of `create_empty_file`. -/
structure CreateEmptyFileResult where
  success : Bool
  file : List Char
  already_exists : Bool
  error : Option (List Char)
deriving DecidableEq

/-- Embedding of `create_empty_file(file_path, create_dirs=True)` from
`src/zeki-oroto-cli/commands.py` lines 191-233: sandbox check, optional
parent creation, pre-existence reported as success with
`already_exists=True`, otherwise exclusive creation of an empty file. -/
def create_empty_file (cwd : AbsPath) (fs : Fs) (file_path : List Char) (create_dirs : Bool) : CreateEmptyFileResult × Fs :=
  let base : CreateEmptyFileResult := ⟨false, file_path, false, none⟩
  let target := joinResolve cwd (parsePath file_path)
  if ¬ isWithin cwd target then ({ base with error := some access_denied_message }, fs)
  else
    match (if create_dirs then mkdirParents fs target.dropLast else some fs) with
    | none => ({ base with error := some (pstr ("mkdir failed: ancestor is not a directory")) }, fs)
    | some fs1 =>
      if existsAt fs1 target then ({ base with success := true, already_exists := true }, fs1)
      else if ¬ isDirAt fs1 target.dropLast then
        ({ base with error := some (pstr ("No such file or directory: ") ++ file_path) }, fs1)
      else ({ base with success := true }, fsSet fs1 target (FsEntry.file []))

/-- Result dict of `delete_file`. -/
structure DeleteFileResult where
  success : Bool
  file : List Char
  error : Option (List Char)
deriving DecidableEq

/-- Embedding of `delete_file(file_path)` from
`src/zeki-oroto-cli/commands.py` lines 236-258. -/
def delete_file (cwd : AbsPath) (fs : Fs) (file_path : List Char) : DeleteFileResult × Fs :=
  let base : DeleteFileResult := ⟨false, file_path, none⟩
  let target := joinResolve cwd (parsePath file_path)
  if ¬ isWithin cwd target then ({ base with error := some access_denied_message }, fs)
  else
    match fsFind fs target with
    | none => ({ base with error := some (pstr ("File not found: ") ++ file_path) }, fs)
    | some FsEntry.dir => ({ base with error := some (pstr ("Not a file: ") ++ file_path) }, fs)
    | some (FsEntry.file _) => ({ base with success := true }, fsRemove fs target)

/-- Result dict of `delete_folder`. -/
structure DeleteFolderResult where
  success : Bool
  folder : List Char
  error : Option (List Char)
deriving DecidableEq

/-- Embedding of `delete_folder(folder_path, recursive=False)` from
`src/zeki-oroto-cli/commands.py` lines 261-286: non-recursive `rmdir`
fails on a non-empty directory, `shutil.rmtree` removes the subtree. -/
def delete_folder (cwd : AbsPath) (fs : Fs) (folder_path : List Char) (recursive : Bool) : DeleteFolderResult × Fs :=
  let base : DeleteFolderResult := ⟨false, folder_path, none⟩
  let target := joinResolve cwd (parsePath folder_path)
  if ¬ isWithin cwd target then ({ base with error := some access_denied_message }, fs)
  else
    match fsFind fs target with
    | none => ({ base with error := some (pstr ("Folder not found: ") ++ folder_path) }, fs)
    | some (FsEntry.file _) => ({ base with error := some (pstr ("Not a folder: ") ++ folder_path) }, fs)
    | some FsEntry.dir =>
      if recursive then ({ base with success := true }, fsRemoveTree fs target)
      else if (childrenOf fs target).isEmpty then ({ base with success := true }, fsRemove fs target)
      else ({ base with error := some (pstr ("Directory not empty: ") ++ folder_path) }, fs)

/-- Result dict of `create_folder`. -/
structure CreateFolderResult where
  success : Bool
  folder : List Char
  already_exists : Bool
  error : Option (List Char)
deriving DecidableEq

/-- Embedding of `create_folder(folder_path)` from
`src/zeki-oroto-cli/commands.py` lines 289-328: sandbox check,
pre-existence reported as success with `already_exists=True`, otherwise
`mkdir(parents=True, exist_ok=True)`. -/
def create_folder (cwd : AbsPath) (fs : Fs) (folder_path : List Char) : CreateFolderResult × Fs :=
  let base : CreateFolderResult := ⟨false, folder_path, false, none⟩
  let target := joinResolve cwd (parsePath folder_path)
  if ¬ isWithin cwd target then ({ base with error := some access_denied_message }, fs)
  else if existsAt fs target then ({ base with success := true, already_exists := true }, fs)
  else
    match mkdirParents fs target with
    | none => ({ base with error := some (pstr ("mkdir failed: ancestor is not a directory")) }, fs)
    | some fs1 => ({ base with success := true }, fs1)

/-- Rendering of `str(path)` for a resolved absolute path. -/
def renderAbs (p : AbsPath) : List Char :=
  pstr ("/") ++ joinSep (pstr ("/")) p

/-- Embedding of a bare `open(path, 'w')` + `write`: fails when the
target is a directory or the parent directory is missing, otherwise
overwrites. -/
def pyOpenWrite (fs : Fs) (p : AbsPath) (content : List Char) : Option Fs :=
  if isDirAt fs p || ¬ isDirAt fs p.dropLast then none
  else some (fsSet fs p (FsEntry.file content))

/-- Result dict of `create_project_structure` (command-module variant);
the mirrored `structure` payload field is omitted as inert. -/
structure CreateProjectStructureResult where
  success : Bool
  project_name : List Char
  error : Option (List Char)
deriving DecidableEq

/-- File-writing loop of `create_project_structure`: each file of one
folder is written with a plain `open(..., 'w')`; a raised error aborts
the whole operation (there is no inner try), keeping prior writes. -/
def cpsFiles (folder_path : AbsPath) (fs : Fs) : List (List Char × List Char) → Bool × Fs
  | [] => (true, fs)
  | (fname, fcontent) :: rest =>
    match pyOpenWrite fs (joinResolve folder_path (parsePath fname)) fcontent with
    | none => (false, fs)
    | some fs1 => cpsFiles folder_path fs1 rest

/-- Folder loop of `create_project_structure`: each top-level key becomes
a folder via `mkdir(parents=True, exist_ok=True)`; dict contents become
files, non-dict contents are silently skipped. -/
def cpsFolders (project_path : AbsPath) (fs : Fs) :
    List (List Char × Option (List (List Char × List Char))) → Bool × Fs
  | [] => (true, fs)
  | (fname, contents) :: rest =>
    let folder_path := joinResolve project_path (parsePath fname)
    match mkdirParents fs folder_path with
    | none => (false, fs)
    | some fs1 =>
      match contents with
      | some files =>
        match cpsFiles folder_path fs1 files with
        | (false, fs2) => (false, fs2)
        | (true, fs2) => cpsFolders project_path fs2 rest
      | none => cpsFolders project_path fs1 rest

/-- Embedding of `create_project_structure(project_name, structure)` from
`src/zeki-oroto-cli/commands.py` lines 331-367. Note the absence of any
sandbox containment check: the project root is simply
`Path.cwd() / project_name`, which a `..`-bearing name moves outside the
working directory. -/
def create_project_structure (cwd : AbsPath) (fs : Fs) (project_name : List Char)
    (structureSpec : List (List Char × Option (List (List Char × List Char)))) :
    CreateProjectStructureResult × Fs :=
  let base : CreateProjectStructureResult := ⟨false, project_name, none⟩
  let project_path := joinResolve cwd (parsePath project_name)
  match mkdirParents fs project_path with
  | none => ({ base with error := some (pstr ("mkdir failed: ancestor is not a directory")) }, fs)
  | some fs1 =>
    match cpsFolders project_path fs1 structureSpec with
    | (false, fs2) => ({ base with error := some (pstr ("file creation failed")) }, fs2)
    | (true, fs2) => ({ base with success := true }, fs2)

/-- Tree node produced by `get_project_structure`: a truncation marker, a
file leaf with its size, or a folder with named entries. -/
inductive PTree where
  | truncated : PTree
  | leaf (size : Nat) : PTree
  | node (entries : List (PName × PTree)) : PTree

/-- Lexicographic order on names, matching `sorted()` on path names. -/
def nameLe : List Char → List Char → Bool
  | [], _ => true
  | _ :: _, [] => false
  | a :: as, b :: bs => if a = b then nameLe as bs else decide (a < b)

/-- Embedding of the inner `build_tree(current_path, depth)` of
`get_project_structure`: the fuel argument is `max_depth + 1 - depth`,
so exhausted fuel is exactly the `depth > max_depth` truncation case;
children are visited in sorted order, dot-prefixed names are skipped,
and file/folder counters are accumulated alongside the tree. -/
def build_tree (fs : Fs) (fuel : Nat) : AbsPath → PTree × Nat × Nat :=
  Nat.rec (motive := fun _ => AbsPath → PTree × Nat × Nat)
    (fun _ => (PTree.truncated, 0, 0))
    (fun _ ih p =>
      let kids := ((childrenOf fs p).mergeSort (fun a b => nameLe a.1 b.1)).filter
        (fun ke => !decide (ke.1.head? = some '.'))
      let r := kids.foldl (fun acc ke =>
        match ke.2 with
        | FsEntry.file content =>
          (acc.1 ++ [(ke.1, PTree.leaf (utf8Len content))], acc.2.1 + 1, acc.2.2)
        | FsEntry.dir =>
          let sub := ih (p ++ [ke.1])
          (acc.1 ++ [(ke.1, sub.1)], acc.2.1 + sub.2.1, acc.2.2 + 1 + sub.2.2))
        ([], 0, 0)
      (PTree.node r.1, r.2.1, r.2.2))
    fuel

/-- Result dict of `get_project_structure`; the `structure` key is
`structure_tree` here (`structure` is a Lean keyword). -/
structure GetProjectStructureResult where
  success : Bool
  structure_tree : PTree
  total_files : Nat
  total_folders : Nat
  error : Option (List Char)

/-- Embedding of `get_project_structure(path=".", max_depth=3)` from
`src/zeki-oroto-cli/commands.py` lines 370-433: sandbox check, then the
recursive tree build; `iterdir()` on a missing path or a file raises and
is folded into the error field. -/
def get_project_structure (cwd : AbsPath) (fs : Fs) (path : List Char) (max_depth : Nat) :
    GetProjectStructureResult :=
  let base : GetProjectStructureResult := ⟨false, PTree.node [], 0, 0, none⟩
  let target := joinResolve cwd (parsePath path)
  if ¬ isWithin cwd target then { base with error := some access_denied_message }
  else
    match fsFind fs target with
    | some FsEntry.dir =>
      let r := build_tree fs (max_depth + 1) target
      { base with
        success := true
        structure_tree := r.1
        total_files := r.2.1
        total_folders := r.2.2 }
    | some (FsEntry.file _) => { base with error := some (pstr ("Not a directory: ") ++ path) }
    | none => { base with error := some (pstr ("No such file or directory: ") ++ path) }

/-- Embedding of `validate_file_path(file_path)` from
`src/thinking_python.py` lines 41-81 in the form the carousel command
uses it (no extension list, base directory defaulting to the working
directory): any path whose string contains `..` is rejected, then the
path resolved against the base must stay within it. -/
def validate_file_path (cwd : AbsPath) (file_path : List Char) : Bool :=
  if containsSub (pstr ("..")) file_path then false
  else isWithin cwd (joinResolve cwd (parsePath file_path))

/-- Embedding of `os.path.basename` on POSIX: the part after the last
slash. -/
def osBasename (p : List Char) : List Char :=
  (splitOnChar '/' p).getLastD []

/-- Leading literal of the carousel `index.html` template (up to the
interpolated carousel name). -/
def index_html_part1 : List Char :=
  pstr ("<!DOCTYPE html>\n<html lang=\"en\">\n<head>\n    <meta charset=\"UTF-8\" />\n    <title>")

/-- Middle literal of the carousel `index.html` template (between the
carousel name and the interpolated markup). -/
def index_html_part2 : List Char :=
  pstr (" Carousel</title>\n    <link rel=\"stylesheet\" href=\"carousel.css\" />\n</head>\n<body>\n    <div class=\"carousel-container\">\n        <button class=\"nav prev\" data-dir=\"-1\">◀</button>\n        <div class=\"carousel-track\">\n            ")

/-- Trailing literal of the carousel `index.html` template. -/
def index_html_part3 : List Char :=
  pstr ("\n        </div>\n        <button class=\"nav next\" data-dir=\"1\">▶</button>\n    </div>\n    <script src=\"carousel.js\"></script>\n</body>\n</html>\n")

/-- The carousel `index.html` f-string assembled from its literals. -/
def index_html_of (carousel_name markup : List Char) : List Char :=
  index_html_part1 ++ carousel_name ++ index_html_part2 ++ markup ++ index_html_part3

/-- Literal `carousel.css` stylesheet written by the carousel scaffold
(braces appear as `\x7b`/`\x7d` escapes). -/
def carousel_css_literal : List Char :=
  pstr ("body\x7bfont-family:Arial,Helvetica,sans-serif;background:#121212;color:#f5f5f5;display:flex;justify-content:center;align-items:center;height:100vh;margin:0\x7d.carousel-container\x7bdisplay:flex;align-items:center;gap:1rem\x7d.carousel-track\x7bwidth:320px;height:200px;overflow:hidden;display:flex;scroll-behavior:smooth;border:2px solid #c8a882;border-radius:8px;background:rgba(0,0,0,0.35)\x7d.carousel-item\x7bmin-width:320px;padding:1.5rem;display:flex;justify-content:center;align-items:center\x7d.nav\x7bbackground:#c8a882;border:none;color:#121212;font-size:1.25rem;padding:0.75rem 1rem;border-radius:4px;cursor:pointer\x7d.nav:hover\x7bbackground:#e6c9a6\x7d.nav:active\x7btransform:scale(0.95)\x7dpre\x7bmargin:0;font-size:1rem;white-space:pre-wrap\x7d\n")

/-- Literal `carousel.js` behaviour script written by the carousel
scaffold (braces and apostrophes appear as hexadecimal escapes). -/
def carousel_js_literal : List Char :=
  pstr ("const track=document.querySelector(\x27.carousel-track\x27);const buttons=document.querySelectorAll(\x27.nav\x27);let index=0;const move=(dir)=>\x7bconst items=track.children;if(!items.length)return;index=(index+dir+items.length)%items.length;track.scrollTo(\x7bleft:index*items[0].offsetWidth,behavior:\x27smooth\x27\x7d);\x7d;buttons.forEach(btn=>btn.addEventListener(\x27click\x27,()=>move(parseInt(btn.dataset.dir,10))));\n")

/-- One carousel file card
`<div class='carousel-item'><pre>{safe_name}</pre></div>`. -/
def carousel_card (relative_path : List Char) : List Char :=
  pstr ("<div class=\x27carousel-item\x27><pre>") ++ osBasename relative_path ++ pstr ("</pre></div>")

/-- Result dict of `create_carousel_project`. -/
structure CreateCarouselResult where
  success : Bool
  carousel_root : List Char
  created_files : List (List Char)
  errors : List (List Char)
deriving DecidableEq

/-- Per-file loop of `create_carousel_project`: unsafe relative paths and
escapes of the carousel root add errors and continue; the parent
`mkdir(parents=True, exist_ok=True)` sits outside the inner try, so its
failure aborts the loop (final component `true`); a failing write adds
an error and continues. -/
def carouselFilesLoop (root : AbsPath) (fs : Fs) (errs created : List (List Char)) :
    List (List Char × List Char) → Fs × List (List Char) × List (List Char) × Bool
  | [] => (fs, errs, created, false)
  | (rp, content) :: rest =>
    if containsSub (pstr ("..")) rp || decide (rp.head? = some '/') || decide (rp.head? = some '\\') then
      carouselFilesLoop root fs (errs ++ [pstr ("Unsafe file path: ") ++ rp]) created rest
    else
      let destination := joinResolve root (parsePath rp)
      if ¬ isWithin root destination then
        carouselFilesLoop root fs (errs ++ [pstr ("Path traversal blocked: ") ++ rp]) created rest
      else
        match mkdirParents fs destination.dropLast with
        | none => (fs, errs ++ [pstr ("mkdir failed: ancestor is not a directory")], created, true)
        | some fs1 =>
          match pyOpenWrite fs1 destination content with
          | none => carouselFilesLoop root fs1 (errs ++ [pstr ("Failed to create ") ++ rp]) created rest
          | some fs2 => carouselFilesLoop root fs2 errs (created ++ [renderAbs destination]) rest

/-- Embedding of `create_carousel_project(carousel_name, files,
include_index=True)` from `src/zeki-oroto-cli/commands.py` lines
495-600: name validation, root containment check, root creation, the
per-file loop, and (unless disabled) the three fixed scaffold assets;
`success` is set to `not errors` exactly as in the source, and any
raised error keeps `success = False` with a non-empty error list. -/
def create_carousel_project (cwd : AbsPath) (fs : Fs) (carousel_name : List Char)
    (files : List (List Char × List Char)) (include_index : Bool) : CreateCarouselResult × Fs :=
  let base : CreateCarouselResult := ⟨false, carousel_name, [], []⟩
  if ¬ validate_file_path cwd carousel_name then
    ({ base with errors := [pstr ("Invalid carousel name: ") ++ carousel_name] }, fs)
  else
    let root_path := joinResolve cwd (parsePath carousel_name)
    if ¬ isWithin cwd root_path then
      ({ base with errors := [pstr ("Carousel path outside working directory: ") ++ carousel_name] }, fs)
    else
      match mkdirPlain fs root_path with
      | none => ({ base with errors := [pstr ("mkdir failed for carousel root")] }, fs)
      | some fs1 =>
        match carouselFilesLoop root_path fs1 [] [] files with
        | (fs2, errs, created, true) =>
          ({ base with errors := errs, created_files := created }, fs2)
        | (fs2, errs, created, false) =>
          if include_index then
            let markup :=
              if files.isEmpty then
                pstr ("<div class=\x27carousel-item\x27><pre>No files yet</pre></div>")
              else joinSep (pstr ("\n")) (files.map (fun f => carousel_card f.1))
            let index_path := root_path ++ [pstr ("index.html")]
            let css_path := root_path ++ [pstr ("carousel.css")]
            let js_path := root_path ++ [pstr ("carousel.js")]
            match pyOpenWrite fs2 index_path (index_html_of carousel_name markup) with
            | none =>
              ({ base with
                 errors := errs ++ [pstr ("failed to write index.html")]
                 created_files := created }, fs2)
            | some fs3 =>
              match pyOpenWrite fs3 css_path carousel_css_literal with
              | none =>
                ({ base with
                   errors := errs ++ [pstr ("failed to write carousel.css")]
                   created_files := created }, fs3)
              | some fs4 =>
                match pyOpenWrite fs4 js_path carousel_js_literal with
                | none =>
                  ({ base with
                     errors := errs ++ [pstr ("failed to write carousel.js")]
                     created_files := created }, fs4)
                | some fs5 =>
                  ({ base with
                     success := errs.isEmpty
                     errors := errs
                     created_files := created ++
                       [renderAbs index_path, renderAbs css_path, renderAbs js_path] }, fs5)
          else
            ({ base with success := errs.isEmpty, errors := errs, created_files := created }, fs2)

/-! ## Lemmas about directory creation -/

theorem fsFind_fsSet_self (fs : Fs) (p : AbsPath) (e : FsEntry) :
    fsFind (fsSet fs p e) p = some e :=
  alistFind_alistSet_self fs p e

theorem fsFind_fsSet_ne (fs : Fs) (p q : AbsPath) (e : FsEntry) (h : q ≠ p) :
    fsFind (fsSet fs p e) q = fsFind fs q :=
  alistFind_alistSet_ne fs p q e h

theorem mkdirOne_self (fs fs' : Fs) (q : AbsPath) (h : mkdirOne fs q = some fs') :
    fsFind fs' q = some FsEntry.dir := by
  unfold mkdirOne at h
  cases hfq : fsFind fs q with
  | none =>
    rw [hfq] at h
    cases h
    exact fsFind_fsSet_self fs q FsEntry.dir
  | some e =>
    rw [hfq] at h
    cases e with
    | file c => cases h
    | dir =>
      cases h
      exact hfq

theorem mkdirOne_other (fs fs' : Fs) (q k : AbsPath) (h : mkdirOne fs q = some fs')
    (hk : k ≠ q) : fsFind fs' k = fsFind fs k := by
  unfold mkdirOne at h
  cases hfq : fsFind fs q with
  | none =>
    rw [hfq] at h
    cases h
    exact fsFind_fsSet_ne fs q k FsEntry.dir hk
  | some e =>
    rw [hfq] at h
    cases e with
    | file c => cases h
    | dir => cases h; rfl

theorem mkdirOne_preserves_dir (fs fs' : Fs) (q k : AbsPath) (h : mkdirOne fs q = some fs')
    (hd : fsFind fs k = some FsEntry.dir) : fsFind fs' k = some FsEntry.dir := by
  by_cases hk : k = q
  · subst hk
    exact mkdirOne_self fs fs' k h
  · rw [mkdirOne_other fs fs' q k h hk]
    exact hd

theorem mkdirOne_preserves_nonfile (fs fs' : Fs) (q k : AbsPath) (h : mkdirOne fs q = some fs')
    (hd : isFileAt fs k = false) : isFileAt fs' k = false := by
  by_cases hk : k = q
  · subst hk
    unfold isFileAt
    rw [mkdirOne_self fs fs' k h]
  · unfold isFileAt
    rw [mkdirOne_other fs fs' q k h hk]
    exact hd

theorem mkdirSeq_other (qs : List AbsPath) (fs fs' : Fs) (k : AbsPath)
    (h : mkdirSeq fs qs = some fs') (hk : k ∉ qs) : fsFind fs' k = fsFind fs k := by
  induction qs generalizing fs with
  | nil =>
    cases h
    rfl
  | cons q rest ih =>
    unfold mkdirSeq at h
    cases hone : mkdirOne fs q with
    | none => rw [hone] at h; cases h
    | some fs1 =>
      rw [hone] at h
      have hkq : k ≠ q := fun hh => hk (hh ▸ List.mem_cons_self q rest)
      have hkr : k ∉ rest := fun hh => hk (List.mem_cons_of_mem q hh)
      rw [ih fs1 h hkr]
      exact mkdirOne_other fs fs1 q k hone hkq

theorem mkdirSeq_preserves_dir (qs : List AbsPath) (fs fs' : Fs) (k : AbsPath)
    (h : mkdirSeq fs qs = some fs') (hd : fsFind fs k = some FsEntry.dir) :
    fsFind fs' k = some FsEntry.dir := by
  induction qs generalizing fs with
  | nil => cases h; exact hd
  | cons q rest ih =>
    unfold mkdirSeq at h
    cases hone : mkdirOne fs q with
    | none => rw [hone] at h; cases h
    | some fs1 =>
      rw [hone] at h
      exact ih fs1 h (mkdirOne_preserves_dir fs fs1 q k hone hd)

theorem mkdirSeq_mem_dir (qs : List AbsPath) (fs fs' : Fs) (q : AbsPath)
    (h : mkdirSeq fs qs = some fs') (hm : q ∈ qs) : fsFind fs' q = some FsEntry.dir := by
  induction qs generalizing fs with
  | nil => cases hm
  | cons q0 rest ih =>
    unfold mkdirSeq at h
    cases hone : mkdirOne fs q0 with
    | none => rw [hone] at h; cases h
    | some fs1 =>
      rw [hone] at h
      rcases List.mem_cons.mp hm with hq | hq
      · subst hq
        exact mkdirSeq_preserves_dir rest fs1 fs' q h (mkdirOne_self fs fs1 q hone)
      · exact ih fs1 h hq

theorem mkdirSeq_isSome (qs : List AbsPath) (fs : Fs)
    (hok : ∀ q ∈ qs, isFileAt fs q = false) : (mkdirSeq fs qs).isSome := by
  induction qs generalizing fs with
  | nil => simp [mkdirSeq]
  | cons q rest ih =>
    have hq := hok q (List.mem_cons_self q rest)
    unfold mkdirSeq
    cases hone : mkdirOne fs q with
    | none =>
      exfalso
      unfold mkdirOne at hone
      cases hfq : fsFind fs q with
      | none => rw [hfq] at hone; cases hone
      | some e =>
        rw [hfq] at hone
        cases e with
        | dir => cases hone
        | file c =>
          unfold isFileAt at hq
          rw [hfq] at hq
          cases hq
    | some fs1 =>
      exact ih fs1 (fun q' hq' =>
        mkdirOne_preserves_nonfile fs fs1 q q' hone (hok q' (List.mem_cons_of_mem q hq')))

theorem mkdirSeq_all_dir (qs : List AbsPath) (fs : Fs)
    (h : ∀ q ∈ qs, fsFind fs q = some FsEntry.dir) : mkdirSeq fs qs = some fs := by
  induction qs with
  | nil => rfl
  | cons q rest ih =>
    unfold mkdirSeq mkdirOne
    rw [h q (List.mem_cons_self q rest)]
    exact ih (fun q' hq' => h q' (List.mem_cons_of_mem q hq'))

theorem self_mem_prefixesOf {α : Type} (l : List α) : l ∈ prefixesOf l := by
  induction l with
  | nil => simp [prefixesOf]
  | cons a t ih =>
    unfold prefixesOf
    exact List.mem_cons_of_mem _ (List.mem_map.mpr ⟨t, ih, rfl⟩)

theorem mem_prefixesOf_length {α : Type} (l q : List α) (h : q ∈ prefixesOf l) :
    q.length ≤ l.length := by
  induction l generalizing q with
  | nil =>
    unfold prefixesOf at h
    rcases List.mem_singleton.mp h with rfl
    simp
  | cons a t ih =>
    unfold prefixesOf at h
    rcases List.mem_cons.mp h with rfl | hmem
    · simp
    · rcases List.mem_map.mp hmem with ⟨q', hq', rfl⟩
      simpa using Nat.succ_le_succ (ih q' hq')

theorem mem_prefixesOf_dropLast {α : Type} (l q : List α) (h : q ∈ prefixesOf l.dropLast) :
    q ∈ prefixesOf l := by
  induction l generalizing q with
  | nil => simpa using h
  | cons a t ih =>
    cases t with
    | nil =>
      have hq : q = [] := by
        simpa [prefixesOf] using h
      subst hq
      simp [prefixesOf]
    | cons b t' =>
      have hd : (a :: b :: t').dropLast = a :: (b :: t').dropLast := rfl
      rw [hd] at h
      unfold prefixesOf at h ⊢
      rcases List.mem_cons.mp h with rfl | hmem
      · exact List.mem_cons_self _ _
      · rcases List.mem_map.mp hmem with ⟨q', hq', rfl⟩
        exact List.mem_cons_of_mem _ (List.mem_map.mpr ⟨q', ih q' hq', rfl⟩)

/-- Whether no prefix of a path (the path itself included) is an
existing regular file, i.e. `mkdir(parents=True, exist_ok=True)` can
succeed along it. -/
def noFileConflict (fs : Fs) (p : AbsPath) : Bool :=
  (prefixesOf p).all (fun q => !isFileAt fs q)

/-! ## Theorems for claim C8 -/

/-- Claim C8 counterexample: an in-sandbox path that does not initially
exist on which `create_folder` twice does not yield `success=true` both
times — with working directory `/ws` and an existing regular file
`/ws/f`, the path `f/child` is inside the sandbox and absent, yet both
`create_folder` calls fail (the `mkdir` raises through the ancestor
file), and `create_empty_file` fails the same way. -/
theorem create_folder_idempotent_counterexample :
    isWithin [pstr ("ws")]
      (joinResolve [pstr ("ws")] (parsePath (pstr ("f/child")))) = true ∧
    fsFind [([], FsEntry.dir), ([pstr ("ws")], FsEntry.dir),
        ([pstr ("ws"), pstr ("f")], FsEntry.file [])]
      (joinResolve [pstr ("ws")] (parsePath (pstr ("f/child")))) = none ∧
    (create_folder [pstr ("ws")]
      [([], FsEntry.dir), ([pstr ("ws")], FsEntry.dir),
        ([pstr ("ws"), pstr ("f")], FsEntry.file [])]
      (pstr ("f/child"))).1.success = false ∧
    (create_folder [pstr ("ws")]
      (create_folder [pstr ("ws")]
        [([], FsEntry.dir), ([pstr ("ws")], FsEntry.dir),
          ([pstr ("ws"), pstr ("f")], FsEntry.file [])]
        (pstr ("f/child"))).2
      (pstr ("f/child"))).1.success = false ∧
    (create_empty_file [pstr ("ws")]
      [([], FsEntry.dir), ([pstr ("ws")], FsEntry.dir),
        ([pstr ("ws"), pstr ("f")], FsEntry.file [])]
      (pstr ("f/child")) true).1.success = false := by
  refine ⟨by decide, by decide, by decide, by decide, by decide⟩

/-- Claim C8 (amended): for an in-sandbox path that does not initially
exist, does not resolve to the filesystem root, and has no existing
regular file on any prefix of its resolved form, `create_folder` twice
yields `success=true` with `already_exists=false` then `true` and a
second call that changes nothing; `create_empty_file` behaves the same
way. -/
theorem create_folder_create_empty_file_idempotent (cwd : AbsPath) (fs : Fs) (p : List Char)
    (hin : isWithin cwd (joinResolve cwd (parsePath p)) = true)
    (hnew : fsFind fs (joinResolve cwd (parsePath p)) = none)
    (hroot : joinResolve cwd (parsePath p) ≠ [])
    (hconf : noFileConflict fs (joinResolve cwd (parsePath p)) = true) :
    ((create_folder cwd fs p).1.success = true ∧
      (create_folder cwd fs p).1.already_exists = false ∧
      (create_folder cwd (create_folder cwd fs p).2 p).1.success = true ∧
      (create_folder cwd (create_folder cwd fs p).2 p).1.already_exists = true ∧
      (create_folder cwd (create_folder cwd fs p).2 p).2 = (create_folder cwd fs p).2) ∧
    ((create_empty_file cwd fs p true).1.success = true ∧
      (create_empty_file cwd fs p true).1.already_exists = false ∧
      (create_empty_file cwd (create_empty_file cwd fs p true).2 p true).1.success = true ∧
      (create_empty_file cwd (create_empty_file cwd fs p true).2 p true).1.already_exists = true ∧
      (create_empty_file cwd (create_empty_file cwd fs p true).2 p true).2 =
        (create_empty_file cwd fs p true).2) := by
  set target := joinResolve cwd (parsePath p) with htarget
  have hconf' : ∀ q ∈ prefixesOf target, isFileAt fs q = false := by
    intro q hq
    have := List.all_eq_true.mp hconf q hq
    simpa using this
  have htargetNotInParent : target ∉ prefixesOf target.dropLast := by
    intro hmem
    have hlen := mem_prefixesOf_length target.dropLast target hmem
    have : target.dropLast.length < target.length := by
      cases htg : target with
      | nil => exact absurd htg hroot
      | cons a t => simp [htg, List.length_dropLast]
    omega
  constructor
  · -- create_folder twice
    have hsome : (mkdirSeq fs (prefixesOf target)).isSome :=
      mkdirSeq_isSome (prefixesOf target) fs hconf'
    cases hseq : mkdirSeq fs (prefixesOf target) with
    | none => rw [hseq] at hsome; cases hsome
    | some fs1 =>
      have hr1 : create_folder cwd fs p =
          ({ success := true, folder := p, already_exists := false, error := none }, fs1) := by
        unfold create_folder
        rw [← htarget]
        simp [hin, existsAt, hnew, mkdirParents, hseq]
      have hdir1 : fsFind fs1 target = some FsEntry.dir :=
        mkdirSeq_mem_dir (prefixesOf target) fs fs1 target hseq (self_mem_prefixesOf target)
      have hr2 : create_folder cwd fs1 p =
          ({ success := true, folder := p, already_exists := true, error := none }, fs1) := by
        unfold create_folder
        rw [← htarget]
        simp [hin, existsAt, hdir1]
      rw [hr1]
      simp [hr2]
  · -- create_empty_file twice
    have hconfP : ∀ q ∈ prefixesOf target.dropLast, isFileAt fs q = false := by
      intro q hq
      exact hconf' q (mem_prefixesOf_dropLast target q hq)
    have hsome : (mkdirSeq fs (prefixesOf target.dropLast)).isSome :=
      mkdirSeq_isSome (prefixesOf target.dropLast) fs hconfP
    cases hseq : mkdirSeq fs (prefixesOf target.dropLast) with
    | none => rw [hseq] at hsome; cases hsome
    | some fs1 =>
      have hnew1 : fsFind fs1 target = none := by
        rw [mkdirSeq_other (prefixesOf target.dropLast) fs fs1 target hseq htargetNotInParent]
        exact hnew
      have hparentDir : fsFind fs1 target.dropLast = some FsEntry.dir :=
        mkdirSeq_mem_dir (prefixesOf target.dropLast) fs fs1 target.dropLast hseq
          (self_mem_prefixesOf target.dropLast)
      have hr1 : create_empty_file cwd fs p true =
          ({ success := true, file := p, already_exists := false, error := none },
            fsSet fs1 target (FsEntry.file [])) := by
        unfold create_empty_file
        rw [← htarget]
        simp [hin, mkdirParents, hseq, existsAt, hnew1, isDirAt, hparentDir]
      have hallDir2 : ∀ q ∈ prefixesOf target.dropLast,
          fsFind (fsSet fs1 target (FsEntry.file [])) q = some FsEntry.dir := by
        intro q hq
        have hqne : q ≠ target := fun hh => htargetNotInParent (hh ▸ hq)
        rw [fsFind_fsSet_ne fs1 target q (FsEntry.file []) hqne]
        exact mkdirSeq_mem_dir (prefixesOf target.dropLast) fs fs1 q hseq hq
      have hseq2 : mkdirSeq (fsSet fs1 target (FsEntry.file [])) (prefixesOf target.dropLast) =
          some (fsSet fs1 target (FsEntry.file [])) :=
        mkdirSeq_all_dir (prefixesOf target.dropLast) _ hallDir2
      have hexists2 : fsFind (fsSet fs1 target (FsEntry.file [])) target =
          some (FsEntry.file []) :=
        fsFind_fsSet_self fs1 target (FsEntry.file [])
      have hr2 : create_empty_file cwd (fsSet fs1 target (FsEntry.file [])) p true =
          ({ success := true, file := p, already_exists := true, error := none },
            fsSet fs1 target (FsEntry.file [])) := by
        unfold create_empty_file
        rw [← htarget]
        simp [hin, mkdirParents, hseq2, existsAt, hexists2]
      rw [hr1]
      simp [hr2]

/-- Claim C8 witness: a concrete in-sandbox fresh path on which the
amended idempotence theorem applies — working directory `/ws`, fresh
path `a/b`, an initially empty directory tree. -/
theorem create_folder_create_empty_file_idempotent_witness :
    ((create_folder [pstr ("ws")] [([], FsEntry.dir), ([pstr ("ws")], FsEntry.dir)]
        (pstr ("a/b"))).1.success = true ∧
      (create_folder [pstr ("ws")] [([], FsEntry.dir), ([pstr ("ws")], FsEntry.dir)]
        (pstr ("a/b"))).1.already_exists = false ∧
      (create_folder [pstr ("ws")]
        (create_folder [pstr ("ws")] [([], FsEntry.dir), ([pstr ("ws")], FsEntry.dir)]
          (pstr ("a/b"))).2 (pstr ("a/b"))).1.success = true ∧
      (create_folder [pstr ("ws")]
        (create_folder [pstr ("ws")] [([], FsEntry.dir), ([pstr ("ws")], FsEntry.dir)]
          (pstr ("a/b"))).2 (pstr ("a/b"))).1.already_exists = true ∧
      (create_folder [pstr ("ws")]
        (create_folder [pstr ("ws")] [([], FsEntry.dir), ([pstr ("ws")], FsEntry.dir)]
          (pstr ("a/b"))).2 (pstr ("a/b"))).2 =
        (create_folder [pstr ("ws")] [([], FsEntry.dir), ([pstr ("ws")], FsEntry.dir)]
          (pstr ("a/b"))).2) ∧
    ((create_empty_file [pstr ("ws")] [([], FsEntry.dir), ([pstr ("ws")], FsEntry.dir)]
        (pstr ("a/b")) true).1.success = true ∧
      (create_empty_file [pstr ("ws")] [([], FsEntry.dir), ([pstr ("ws")], FsEntry.dir)]
        (pstr ("a/b")) true).1.already_exists = false ∧
      (create_empty_file [pstr ("ws")]
        (create_empty_file [pstr ("ws")] [([], FsEntry.dir), ([pstr ("ws")], FsEntry.dir)]
          (pstr ("a/b")) true).2 (pstr ("a/b")) true).1.success = true ∧
      (create_empty_file [pstr ("ws")]
        (create_empty_file [pstr ("ws")] [([], FsEntry.dir), ([pstr ("ws")], FsEntry.dir)]
          (pstr ("a/b")) true).2 (pstr ("a/b")) true).1.already_exists = true ∧
      (create_empty_file [pstr ("ws")]
        (create_empty_file [pstr ("ws")] [([], FsEntry.dir), ([pstr ("ws")], FsEntry.dir)]
          (pstr ("a/b")) true).2 (pstr ("a/b")) true).2 =
        (create_empty_file [pstr ("ws")] [([], FsEntry.dir), ([pstr ("ws")], FsEntry.dir)]
          (pstr ("a/b")) true).2) :=
  create_folder_create_empty_file_idempotent [pstr ("ws")]
    [([], FsEntry.dir), ([pstr ("ws")], FsEntry.dir)] (pstr ("a/b"))
    (by decide) (by decide) (by decide) (by decide)

/-! ## Theorems for claim C3 -/

/-- Denied outcome asserted by the sandbox-containment claim for every
guarded filesystem operation at one path: failure with the
access-denied error and an unchanged filesystem. -/
def SandboxDeniedAll (cwd : AbsPath) (fs : Fs) (p : List Char) : Prop :=
  ((list_directory cwd fs p).success = false ∧
    (list_directory cwd fs p).error = some access_denied_message) ∧
  (∀ ml, (read_file cwd fs p ml).success = false ∧
    (read_file cwd fs p ml).error = some access_denied_message) ∧
  (∀ content cd, (write_file cwd fs p content cd).1.success = false ∧
    (write_file cwd fs p content cd).1.error = some access_denied_message ∧
    (write_file cwd fs p content cd).2 = fs) ∧
  (∀ cd, (create_empty_file cwd fs p cd).1.success = false ∧
    (create_empty_file cwd fs p cd).1.error = some access_denied_message ∧
    (create_empty_file cwd fs p cd).2 = fs) ∧
  ((delete_file cwd fs p).1.success = false ∧
    (delete_file cwd fs p).1.error = some access_denied_message ∧
    (delete_file cwd fs p).2 = fs) ∧
  (∀ r, (delete_folder cwd fs p r).1.success = false ∧
    (delete_folder cwd fs p r).1.error = some access_denied_message ∧
    (delete_folder cwd fs p r).2 = fs) ∧
  ((create_folder cwd fs p).1.success = false ∧
    (create_folder cwd fs p).1.error = some access_denied_message ∧
    (create_folder cwd fs p).2 = fs) ∧
  (∀ md, (get_project_structure cwd fs p md).success = false ∧
    (get_project_structure cwd fs p md).error = some access_denied_message) ∧
  (∀ files ii, (create_carousel_project cwd fs p files ii).1.success = false ∧
    (create_carousel_project cwd fs p files ii).1.errors ≠ [] ∧
    (create_carousel_project cwd fs p files ii).2 = fs)

/-- Claim C3 (amended): for every path whose resolved absolute form lies
outside the working directory's subtree, each of `list_directory`,
`read_file`, `write_file`, `create_empty_file`, `delete_file`,
`delete_folder`, `create_folder`, `get_project_structure` and
`create_carousel_project` fails with an access-denied error and leaves
the filesystem untouched. `create_project_structure` is excluded: it
performs no containment check (see its counterexample). -/
theorem sandbox_containment (cwd : AbsPath) (fs : Fs) (p : List Char)
    (h : isWithin cwd (joinResolve cwd (parsePath p)) = false) :
    SandboxDeniedAll cwd fs p := by
  have hv : validate_file_path cwd p = false := by
    unfold validate_file_path
    rw [h]
    exact ite_self false
  refine ⟨⟨?_, ?_⟩, fun ml => ⟨?_, ?_⟩, fun content cd => ⟨?_, ?_, ?_⟩, fun cd => ⟨?_, ?_, ?_⟩,
    ⟨?_, ?_, ?_⟩, fun r => ⟨?_, ?_, ?_⟩, ⟨?_, ?_, ?_⟩, fun md => ⟨?_, ?_⟩,
    fun files ii => ⟨?_, ?_, ?_⟩⟩ <;>
    simp [list_directory, read_file, write_file, create_empty_file, delete_file,
      delete_folder, create_folder, get_project_structure, create_carousel_project, h, hv]

/-- Claim C3 witness: the amended containment theorem applied at the
concrete working directory `/home/user` and the escaping path
`/etc/passwd`. -/
theorem sandbox_containment_witness :
    isWithin [pstr ("home"), pstr ("user")]
      (joinResolve [pstr ("home"), pstr ("user")] (parsePath (pstr ("/etc/passwd")))) = false ∧
    SandboxDeniedAll [pstr ("home"), pstr ("user")] [([], FsEntry.dir)] (pstr ("/etc/passwd")) :=
  ⟨by decide,
    sandbox_containment [pstr ("home"), pstr ("user")] [([], FsEntry.dir)]
      (pstr ("/etc/passwd")) (by decide)⟩

/-- Claim C3 counterexample: `create_project_structure` is listed by the
claim among the operations that deny out-of-sandbox paths, but it has no
containment check — with working directory `/home/proj`, the project
name `../evil` resolves to `/home/evil`, outside the sandbox, yet the
operation succeeds and creates that directory. -/
theorem create_project_structure_escape_counterexample :
    isWithin [pstr ("home"), pstr ("proj")]
      (joinResolve [pstr ("home"), pstr ("proj")] (parsePath (pstr ("../evil")))) = false ∧
    (create_project_structure [pstr ("home"), pstr ("proj")]
      [([], FsEntry.dir), ([pstr ("home")], FsEntry.dir),
        ([pstr ("home"), pstr ("proj")], FsEntry.dir)]
      (pstr ("../evil")) []).1.success = true ∧
    fsFind (create_project_structure [pstr ("home"), pstr ("proj")]
      [([], FsEntry.dir), ([pstr ("home")], FsEntry.dir),
        ([pstr ("home"), pstr ("proj")], FsEntry.dir)]
      (pstr ("../evil")) []).2 [pstr ("home"), pstr ("evil")] = some FsEntry.dir ∧
    (create_project_structure [pstr ("home"), pstr ("proj")]
      [([], FsEntry.dir), ([pstr ("home")], FsEntry.dir),
        ([pstr ("home"), pstr ("proj")], FsEntry.dir)]
      (pstr ("../evil")) []).2 ≠
      [([], FsEntry.dir), ([pstr ("home")], FsEntry.dir),
        ([pstr ("home"), pstr ("proj")], FsEntry.dir)] := by
  refine ⟨by decide, by decide, by decide, by decide⟩

/-! ## Shell execution helper (`commands.py`) and background process
manager (`process_manager.py`) -/

/-- The allow-list of `_is_command_allowed` in
`src/zeki-oroto-cli/commands.py` lines 668-671. -/
def allowed_prefixes : List (List Char) :=
  [pstr ("npm"), pstr ("pnpm"), pstr ("yarn"), pstr ("npx"), pstr ("pytest"),
   pstr ("pip"), pstr ("python"), pstr ("node"), pstr ("serve"), pstr ("http-server")]

/-- The allow-list `_ALLOWED_PREFIXES` of
`src/zeki-oroto-cli/process_manager.py` lines 22-25 (it additionally
contains `uvicorn`). -/
def pm_allowed_prefixes : List (List Char) :=
  [pstr ("npm"), pstr ("pnpm"), pstr ("yarn"), pstr ("npx"), pstr ("pytest"),
   pstr ("pip"), pstr ("python"), pstr ("node"), pstr ("serve"), pstr ("http-server"),
   pstr ("uvicorn")]

/-- Embedding of `_is_command_allowed(cmd)` from
`src/zeki-oroto-cli/commands.py` lines 663-673: the command is stripped
and lower-cased, and its first whitespace-delimited token must equal or
start with one of the allowed prefixes. -/
def _is_command_allowed (cmd : List Char) : Bool :=
  let c := toLowerP (pyStrip cmd)
  if c.isEmpty then false
  else
    allowed_prefixes.any (fun p => decide (firstToken c = p) || isPrefixL p (firstToken c))

/-- Embedding of `_is_allowed(command)` from
`src/zeki-oroto-cli/process_manager.py` lines 49-54. -/
def _is_allowed (command : List Char) : Bool :=
  let c := toLowerP (pyStrip command)
  if c.isEmpty then false
  else
    pm_allowed_prefixes.any (fun p => decide (firstToken c = p) || isPrefixL p (firstToken c))

/-- Embedding of the inner `_classify_error(stderr, exit_code)` of
`run_command_async`: keyword buckets over the lower-cased stderr, with
Python operator precedence (`or` binds weaker than `and`) and `exit_code`
truthiness (non-`None` and non-zero) preserved. -/
def _classify_error (stderrV : List Char) (exit_code : Option Int) : List Char :=
  let s := toLowerP stderrV
  let truthy := match exit_code with
    | some c => decide (c ≠ 0)
    | none => false
  if containsSub (pstr ("permission denied")) s || containsSub (pstr ("access is denied")) s then
    pstr ("permission")
  else if containsSub (pstr ("address already in use")) s ||
      (containsSub (pstr ("port")) s && containsSub (pstr ("in use")) s) then
    pstr ("port_in_use")
  else if containsSub (pstr ("module not found")) s || containsSub (pstr ("cannot import")) s ||
      containsSub (pstr ("no module named")) s then
    pstr ("missing_dependency")
  else if containsSub (pstr ("assert")) s ||
      (containsSub (pstr ("failed")) s && containsSub (pstr ("test")) s) then
    pstr ("test_failure")
  else if containsSub (pstr ("syntaxerror")) s ||
      (containsSub (pstr ("traceback")) s && truthy) then
    pstr ("runtime_error")
  else if truthy then pstr ("error")
  else pstr ("unknown")

/-- Result dict of `run_command_async` (timestamps and the best-effort
log file are outside the model). -/
structure RunCommandResult where
  success : Bool
  command : List Char
  cwd : List Char
  exit_code : Option Int
  stdout : List Char
  stderr : List Char
  error : Option (List Char)
  cancelled : Bool
  error_class : Option (List Char)
deriving DecidableEq

/-- Environment outcome of an awaited subprocess: normal completion,
timeout expiry, or cooperative cancellation mid-run. -/
inductive ProcBehavior where
  | finished (code : Int) (out err : List Char)
  | timedOut (codeAfter : Option Int) (out err : List Char)
  | cancelledMid (codeAfter : Option Int) (out err : List Char)
deriving DecidableEq

/-- Observation of one `run_command_async` call: its result dict,
whether a subprocess was spawned, and whether cancellation was
re-raised to the caller. -/
structure RunCommandStep where
  result : RunCommandResult
  spawned : Bool
  reraised : Bool
deriving DecidableEq

/-- Embedding of `run_command_async(command, cwd=None, timeout=None,
env=None)` from `src/zeki-oroto-cli/commands.py` lines 675-889: the
allow-list gate, then cwd containment and existence checks, all before
any subprocess is spawned; after the spawn the three completion paths
fill the envelope as in the source (cancellation re-raises after state
capture). -/
def run_command_async (cwdP : AbsPath) (fs : Fs) (command : List Char)
    (cwdArg : Option (List Char)) (behavior : ProcBehavior) : RunCommandStep :=
  let cwdStr := match cwdArg with
    | some c => c
    | none => renderAbs cwdP
  let base : RunCommandResult := ⟨false, command, cwdStr, none, [], [], none, false, none⟩
  if ¬ _is_command_allowed command then
    { result := { base with
        error := some (pstr ("Command not allowed. Only test/build/dev commands are permitted.")) }
      spawned := false
      reraised := false }
  else
    let workdir := match cwdArg with
      | some c => joinResolve cwdP (parsePath c)
      | none => cwdP
    if ¬ isWithin cwdP workdir then
      { result := { base with error := some (pstr ("Access denied: cwd outside project directory")) }
        spawned := false
        reraised := false }
    else if ¬ isDirAt fs workdir then
      { result := { base with error := some (pstr ("Invalid cwd: ") ++ renderAbs workdir) }
        spawned := false
        reraised := false }
    else
      match behavior with
      | ProcBehavior.finished code out err =>
        { result := { base with
            success := decide (code = 0)
            exit_code := some code
            stdout := out
            stderr := err
            error_class := some (_classify_error err (some code)) }
          spawned := true
          reraised := false }
      | ProcBehavior.timedOut codeAfter out err =>
        { result := { base with
            exit_code := codeAfter
            stdout := out
            stderr := err
            error := some (pstr ("Command timed out"))
            error_class := some (_classify_error err codeAfter) }
          spawned := true
          reraised := false }
      | ProcBehavior.cancelledMid codeAfter out err =>
        { result := { base with
            exit_code := codeAfter
            stdout := out
            stderr := err
            cancelled := true
            error_class := some (_classify_error err codeAfter) }
          spawned := true
          reraised := true }

/-- In-memory process registry entry of the background process manager
(stream tasks, timestamps and log paths are outside the model). -/
structure ProcessInfo where
  command : List Char
  cwdStr : List Char
  returncode : Option Int
  status : List Char
  exit_code : Option Int
deriving DecidableEq

/-- The `_REGISTRY` of `process_manager.py`: pid keyed process records. -/
abbrev Registry := List (List Char × ProcessInfo)

/-- Result dict of `start_process`. -/
structure StartProcessResult where
  success : Bool
  pid : Option (List Char)
  command : List Char
  cwd : List Char
  error : Option (List Char)
deriving DecidableEq

/-- Observation of one `start_process` call. -/
structure StartProcessStep where
  result : StartProcessResult
  registry : Registry
  spawned : Bool
deriving DecidableEq

/-- Embedding of `start_process(command, cwd=None, env=None, name=None,
project_id=None)` from `src/zeki-oroto-cli/process_manager.py` lines
171-245: its own allow-list gate, a cwd existence check, then the spawn
and registration under a fresh pid with `status="running"`. -/
def start_process (cwdP : AbsPath) (fs : Fs) (reg : Registry) (command : List Char)
    (cwdArg : Option (List Char)) (newPid : List Char) : StartProcessStep :=
  let workdir := match cwdArg with
    | some c => joinResolve cwdP (parsePath c)
    | none => cwdP
  let base : StartProcessResult := ⟨false, none, command, renderAbs workdir, none⟩
  if ¬ _is_allowed command then
    { result := { base with error := some (pstr ("Command not allowed for background execution")) }
      registry := reg
      spawned := false }
  else if ¬ isDirAt fs workdir then
    { result := { base with error := some (pstr ("Invalid cwd: ") ++ renderAbs workdir) }
      registry := reg
      spawned := false }
  else
    { result := { base with success := true, pid := some newPid }
      registry := alistSet reg newPid ⟨command, renderAbs workdir, none, pstr ("running"), none⟩
      spawned := true }

/-- Result dict of `stop_process` (the success dict carries no error
key, embedded as `error = none`). -/
structure StopProcessResult where
  success : Bool
  pid : Option (List Char)
  status : Option (List Char)
  exit_code : Option Int
  error : Option (List Char)
deriving DecidableEq

/-- Embedding of `stop_process(pid)` from
`src/zeki-oroto-cli/process_manager.py` lines 248-277: a missing pid
fails; otherwise the process is terminated, `rcAfterWait` standing for
`proc.returncode` once the wait finishes, and the record's status
becomes `stopped` when no exit code is known, else `exited`. -/
def stop_process (reg : Registry) (pid : List Char) (rcAfterWait : Option Int) :
    StopProcessResult × Registry :=
  match alistFind reg pid with
  | none => (⟨false, none, none, none, some (pstr ("Process not found: ") ++ pid)⟩, reg)
  | some info =>
    let rcFinal := match info.returncode with
      | none => rcAfterWait
      | some c => some c
    let statusV := match rcFinal with
      | none => pstr ("stopped")
      | some _ => pstr ("exited")
    (⟨true, some pid, some statusV, rcFinal, none⟩,
      alistSet reg pid { info with returncode := rcFinal, status := statusV, exit_code := rcFinal })

/-- Result dict of `list_processes` (each item abbreviated to pid,
command and status). -/
structure ListProcessesResult where
  success : Bool
  processes : List (List Char × List Char × List Char)
  last_pid : Option (List Char)
deriving DecidableEq

/-- Embedding of `list_processes()` from
`src/zeki-oroto-cli/process_manager.py` lines 290-304. -/
def list_processes (reg : Registry) (lastPid : Option (List Char)) : ListProcessesResult :=
  ⟨true, reg.map (fun item => (item.1, item.2.command, item.2.status)), lastPid⟩

/-! ## Theorems for claim C4 -/

theorem is_command_allowed_eq_gate (command : List Char) :
    _is_command_allowed command =
      allowed_prefixes.any (fun p =>
        decide (firstToken (toLowerP (pyStrip command)) = p) ||
          isPrefixL p (firstToken (toLowerP (pyStrip command)))) := by
  unfold _is_command_allowed
  by_cases hc : (toLowerP (pyStrip command)).isEmpty = true
  · have hce : toLowerP (pyStrip command) = [] := by
      cases hh : toLowerP (pyStrip command) with
      | nil => rfl
      | cons a t => rw [hh] at hc; cases hc
    rw [hce]
    simp only [if_pos rfl]
    decide
  · simp only [if_neg hc]

theorem is_allowed_eq_gate (command : List Char) :
    _is_allowed command =
      pm_allowed_prefixes.any (fun p =>
        decide (firstToken (toLowerP (pyStrip command)) = p) ||
          isPrefixL p (firstToken (toLowerP (pyStrip command)))) := by
  unfold _is_allowed
  by_cases hc : (toLowerP (pyStrip command)).isEmpty = true
  · have hce : toLowerP (pyStrip command) = [] := by
      cases hh : toLowerP (pyStrip command) with
      | nil => rfl
      | cons a t => rw [hh] at hc; cases hc
    rw [hce]
    simp only [if_pos rfl]
    decide
  · simp only [if_neg hc]

/-- Claim C4 counterexample: the command "NPM install" has first
whitespace-delimited token `NPM`, which (case-sensitively) neither
equals nor starts with any entry of the allow-list, so the claim says
the gate rejects it and spawns nothing — but the source lower-cases the
command first, so the gate passes it and `run_command_async` spawns a
subprocess. -/
theorem allow_list_case_counterexample :
    firstToken (pstr ("NPM install")) = pstr ("NPM") ∧
    allowed_prefixes.all (fun p =>
      !(decide (firstToken (pstr ("NPM install")) = p) ||
        isPrefixL p (firstToken (pstr ("NPM install"))))) = true ∧
    _is_command_allowed (pstr ("NPM install")) = true ∧
    (run_command_async [pstr ("ws")] [([], FsEntry.dir), ([pstr ("ws")], FsEntry.dir)]
      (pstr ("NPM install")) none (ProcBehavior.finished 0 [] [])).spawned = true := by
  refine ⟨by decide, by decide, by decide, by decide⟩

/-- Claim C4 (amended): with the token comparison performed on the
stripped, lower-cased command — as the source does — a command whose
first token matches no allowed prefix makes `run_command_async` and
`start_process` return `success=false` with the respective not-allowed
error, without spawning a subprocess or touching the registry; a
command whose lowered first token equals or starts with an allowed
prefix passes the corresponding gate. -/
theorem allow_list_enforcement (cwdP : AbsPath) (fs : Fs) (reg : Registry)
    (command : List Char) (cwdArg : Option (List Char)) (behavior : ProcBehavior)
    (newPid : List Char) :
    (allowed_prefixes.any (fun p =>
        decide (firstToken (toLowerP (pyStrip command)) = p) ||
          isPrefixL p (firstToken (toLowerP (pyStrip command)))) = false →
      (run_command_async cwdP fs command cwdArg behavior).result.success = false ∧
      (run_command_async cwdP fs command cwdArg behavior).result.error =
        some (pstr ("Command not allowed. Only test/build/dev commands are permitted.")) ∧
      (run_command_async cwdP fs command cwdArg behavior).spawned = false) ∧
    (pm_allowed_prefixes.any (fun p =>
        decide (firstToken (toLowerP (pyStrip command)) = p) ||
          isPrefixL p (firstToken (toLowerP (pyStrip command)))) = false →
      (start_process cwdP fs reg command cwdArg newPid).result.success = false ∧
      (start_process cwdP fs reg command cwdArg newPid).result.error =
        some (pstr ("Command not allowed for background execution")) ∧
      (start_process cwdP fs reg command cwdArg newPid).spawned = false ∧
      (start_process cwdP fs reg command cwdArg newPid).registry = reg) ∧
    (allowed_prefixes.any (fun p =>
        decide (firstToken (toLowerP (pyStrip command)) = p) ||
          isPrefixL p (firstToken (toLowerP (pyStrip command)))) = true →
      _is_command_allowed command = true) ∧
    (pm_allowed_prefixes.any (fun p =>
        decide (firstToken (toLowerP (pyStrip command)) = p) ||
          isPrefixL p (firstToken (toLowerP (pyStrip command)))) = true →
      _is_allowed command = true) := by
  refine ⟨?_, ?_, ?_, ?_⟩
  · intro h
    have hg : _is_command_allowed command = false := by
      rw [is_command_allowed_eq_gate]
      exact h
    refine ⟨?_, ?_, ?_⟩ <;> simp [run_command_async, hg]
  · intro h
    have hg : _is_allowed command = false := by
      rw [is_allowed_eq_gate]
      exact h
    refine ⟨?_, ?_, ?_, ?_⟩ <;> simp [start_process, hg]
  · intro h
    rw [is_command_allowed_eq_gate]
    exact h
  · intro h
    rw [is_allowed_eq_gate]
    exact h

/-- Claim C4 witness: the amended allow-list theorem applied at the
concrete rejected command "rm -rf /" and the concrete accepted commands
"npm --version" (foreground gate) and "uvicorn main:app" (background
gate, which additionally allows uvicorn). -/
theorem allow_list_enforcement_witness :
    ((run_command_async [pstr ("ws")] [] (pstr ("rm -rf /")) none
        (ProcBehavior.finished 0 [] [])).result.success = false ∧
      (run_command_async [pstr ("ws")] [] (pstr ("rm -rf /")) none
        (ProcBehavior.finished 0 [] [])).result.error =
        some (pstr ("Command not allowed. Only test/build/dev commands are permitted.")) ∧
      (run_command_async [pstr ("ws")] [] (pstr ("rm -rf /")) none
        (ProcBehavior.finished 0 [] [])).spawned = false) ∧
    ((start_process [pstr ("ws")] [] [] (pstr ("rm -rf /")) none (pstr ("p1"))).result.success = false ∧
      (start_process [pstr ("ws")] [] [] (pstr ("rm -rf /")) none (pstr ("p1"))).result.error =
        some (pstr ("Command not allowed for background execution")) ∧
      (start_process [pstr ("ws")] [] [] (pstr ("rm -rf /")) none (pstr ("p1"))).spawned = false ∧
      (start_process [pstr ("ws")] [] [] (pstr ("rm -rf /")) none (pstr ("p1"))).registry = []) ∧
    _is_command_allowed (pstr ("npm --version")) = true ∧
    _is_allowed (pstr ("uvicorn main:app")) = true :=
  ⟨(allow_list_enforcement [pstr ("ws")] [] [] (pstr ("rm -rf /")) none
      (ProcBehavior.finished 0 [] []) (pstr ("p1"))).1 (by decide),
    (allow_list_enforcement [pstr ("ws")] [] [] (pstr ("rm -rf /")) none
      (ProcBehavior.finished 0 [] []) (pstr ("p1"))).2.1 (by decide),
    (allow_list_enforcement [pstr ("ws")] [] [] (pstr ("npm --version")) none
      (ProcBehavior.finished 0 [] []) (pstr ("p1"))).2.2.1 (by decide),
    (allow_list_enforcement [pstr ("ws")] [] [] (pstr ("uvicorn main:app")) none
      (ProcBehavior.finished 0 [] []) (pstr ("p1"))).2.2.2 (by decide)⟩

/-! ## Theorems for claim C9 -/

/-- Claim C9: the Command Result envelope convention — every embedded
filesystem, process and shell operation returns an envelope with a
`success` boolean whose `error` field is `None` (and whose `errors`
list, when present, is empty) whenever `success` is true; in the
embedding every operation is a total function into its envelope, the
counterpart of the source catching internal faults into the error
field instead of raising. -/
theorem command_result_envelope :
    (∀ cwd fs p, (!(list_directory cwd fs p).success ||
      (list_directory cwd fs p).error.isNone) = true) ∧
    (∀ cwd fs p ml, (!(read_file cwd fs p ml).success ||
      (read_file cwd fs p ml).error.isNone) = true) ∧
    (∀ cwd fs p content cd, (!(write_file cwd fs p content cd).1.success ||
      (write_file cwd fs p content cd).1.error.isNone) = true) ∧
    (∀ cwd fs p cd, (!(create_empty_file cwd fs p cd).1.success ||
      (create_empty_file cwd fs p cd).1.error.isNone) = true) ∧
    (∀ cwd fs p, (!(delete_file cwd fs p).1.success ||
      (delete_file cwd fs p).1.error.isNone) = true) ∧
    (∀ cwd fs p r, (!(delete_folder cwd fs p r).1.success ||
      (delete_folder cwd fs p r).1.error.isNone) = true) ∧
    (∀ cwd fs p, (!(create_folder cwd fs p).1.success ||
      (create_folder cwd fs p).1.error.isNone) = true) ∧
    (∀ cwd fs p st, (!(create_project_structure cwd fs p st).1.success ||
      (create_project_structure cwd fs p st).1.error.isNone) = true) ∧
    (∀ cwd fs p md, (!(get_project_structure cwd fs p md).success ||
      (get_project_structure cwd fs p md).error.isNone) = true) ∧
    (∀ cwd fs nm files ii, (!(create_carousel_project cwd fs nm files ii).1.success ||
      (create_carousel_project cwd fs nm files ii).1.errors.isEmpty) = true) ∧
    (∀ cwdP fs command cwdArg behavior,
      (!(run_command_async cwdP fs command cwdArg behavior).result.success ||
        (run_command_async cwdP fs command cwdArg behavior).result.error.isNone) = true) ∧
    (∀ cwdP fs reg command cwdArg newPid,
      (!(start_process cwdP fs reg command cwdArg newPid).result.success ||
        (start_process cwdP fs reg command cwdArg newPid).result.error.isNone) = true) ∧
    (∀ reg pid rc, (!(stop_process reg pid rc).1.success ||
      (stop_process reg pid rc).1.error.isNone) = true) ∧
    (∀ reg lp, (list_processes reg lp).success = true) := by
  refine ⟨?_, ?_, ?_, ?_, ?_, ?_, ?_, ?_, ?_, ?_, ?_, ?_, ?_, ?_⟩
  · intro cwd fs p
    simp only [list_directory]
    repeat' split
    all_goals rfl
  · intro cwd fs p ml
    simp only [read_file]
    repeat' split
    all_goals rfl
  · intro cwd fs p content cd
    simp only [write_file]
    repeat' split
    all_goals rfl
  · intro cwd fs p cd
    simp only [create_empty_file]
    repeat' split
    all_goals rfl
  · intro cwd fs p
    simp only [delete_file]
    repeat' split
    all_goals rfl
  · intro cwd fs p r
    simp only [delete_folder]
    repeat' split
    all_goals rfl
  · intro cwd fs p
    simp only [create_folder]
    repeat' split
    all_goals rfl
  · intro cwd fs p st
    simp only [create_project_structure]
    repeat' split
    all_goals rfl
  · intro cwd fs p md
    simp only [get_project_structure]
    repeat' split
    all_goals rfl
  · intro cwd fs nm files ii
    simp only [create_carousel_project]
    repeat' split
    all_goals simp
  · intro cwdP fs command cwdArg behavior
    simp only [run_command_async]
    repeat' split
    all_goals simp
  · intro cwdP fs reg command cwdArg newPid
    simp only [start_process]
    repeat' split
    all_goals rfl
  · intro reg pid rc
    simp only [stop_process]
    repeat' split
    all_goals rfl
  · intro reg lp
    rfl

/-! ## Project state store (`src/zeki-oroto-cli/main.py`, class
ProjectState) -/

/-- Characters of the project-id character class `[A-Za-z0-9_-]`. -/
def is_project_id_char (c : Char) : Bool :=
  (decide ('A' ≤ c) && decide (c ≤ 'Z')) || (decide ('a' ≤ c) && decide (c ≤ 'z')) ||
    (decide ('0' ≤ c) && decide (c ≤ '9')) || decide (c = '_') || decide (c = '-')

/-- Embedding of the truthiness of
`re.match(r'^[A-Za-z0-9_-]+$', s)`: in Python, `$` matches at the end
of the string or just before a single trailing newline, so a body of
pattern characters followed by one newline is also accepted. -/
def re_match_project_id (s : List Char) : Bool :=
  let body := if s.getLast? = some '\n' then s.dropLast else s
  !body.isEmpty && body.all is_project_id_char

/-- Embedding of `ProjectState._validate_project_id(project_id)` from
`src/zeki-oroto-cli/main.py` lines 224-229: the regex test, then the
resolved `<id>.json` file must have the project directory among its
strict ancestors (`self.project_dir in project_file.parents`). -/
def _validate_project_id (project_dir : AbsPath) (project_id : List Char) : Bool :=
  re_match_project_id project_id &&
    (let project_file := joinResolve project_dir (parsePath (project_id ++ pstr (".json")))
     decide (project_dir ≠ project_file) && isPrefixL project_dir project_file)

/-- The on-disk state of a `ProjectState` store: its resolved project
directory and the id-keyed project files (JSON payloads left abstract). -/
structure ProjectStore (α : Type) where
  project_dir : AbsPath
  files : List (List Char × α)
deriving DecidableEq

/-- Embedding of `ProjectState.save_project(project_id, data)` from
`src/zeki-oroto-cli/main.py` lines 231-237: an invalid id raises
`ValueError` (the error value) and writes nothing, a valid one
overwrites the id's file. -/
def save_project {α : Type} (st : ProjectStore α) (project_id : List Char) (data : α) :
    Except (List Char) (ProjectStore α) :=
  if ¬ _validate_project_id st.project_dir project_id then
    Except.error (pstr ("Invalid project ID: ") ++ project_id)
  else
    Except.ok { st with files := alistSet st.files project_id data }

/-- Embedding of `ProjectState.load_project(project_id)` from
`src/zeki-oroto-cli/main.py` lines 239-247: an invalid id or a missing
file yields `None`, otherwise the parsed file. -/
def load_project {α : Type} (st : ProjectStore α) (project_id : List Char) : Option α :=
  if ¬ _validate_project_id st.project_dir project_id then none
  else alistFind st.files project_id

theorem splitOnChar_no_sep (sep : Char) (s : List Char) (h : ∀ c ∈ s, c ≠ sep) :
    splitOnChar sep s = [s] := by
  induction s with
  | nil => rfl
  | cons c t ih =>
    have hc : c ≠ sep := h c (List.mem_cons_self c t)
    have ht : splitOnChar sep t = [t] := ih (fun c' hc' => h c' (List.mem_cons_of_mem c hc'))
    unfold splitOnChar
    rw [if_neg hc, ht]

theorem re_match_chars (project_id : List Char) (h : re_match_project_id project_id = true) :
    ∀ c ∈ project_id, is_project_id_char c = true ∨ c = '\n' := by
  intro c hc
  unfold re_match_project_id at h
  by_cases hl : project_id.getLast? = some '\n'
  · rw [if_pos hl] at h
    have hne : project_id ≠ [] := by
      intro hh
      rw [hh] at hl
      cases hl
    have hsplit : project_id.dropLast ++ [project_id.getLast hne] = project_id :=
      List.dropLast_append_getLast hne
    have hlast : project_id.getLast hne = '\n' := by
      have := List.getLast?_eq_getLast project_id hne
      rw [this] at hl
      exact Option.some.inj hl
    rw [← hsplit] at hc
    rcases List.mem_append.mp hc with hmem | hmem
    · exact Or.inl (List.all_eq_true.mp (Bool.and_elim_right h) c hmem)
    · exact Or.inr (by simpa [hlast] using List.mem_singleton.mp hmem)
  · rw [if_neg hl] at h
    exact Or.inl (List.all_eq_true.mp (Bool.and_elim_right h) c hc)

theorem re_match_head (project_id : List Char) (h : re_match_project_id project_id = true) :
    ∃ c0 t, project_id = c0 :: t ∧ is_project_id_char c0 = true := by
  unfold re_match_project_id at h
  by_cases hl : project_id.getLast? = some '\n'
  · rw [if_pos hl] at h
    cases hb : project_id.dropLast with
    | nil =>
      rw [hb] at h
      cases h
    | cons c0 t =>
      have hne : project_id ≠ [] := by
        intro hh
        rw [hh] at hl
        cases hl
      have hsplit : project_id.dropLast ++ [project_id.getLast hne] = project_id :=
        List.dropLast_append_getLast hne
      refine ⟨c0, t ++ [project_id.getLast hne], ?_, ?_⟩
      · calc project_id = project_id.dropLast ++ [project_id.getLast hne] := hsplit.symm
          _ = (c0 :: t) ++ [project_id.getLast hne] := by rw [hb]
          _ = c0 :: (t ++ [project_id.getLast hne]) := rfl
      · have hall := List.all_eq_true.mp (Bool.and_elim_right h) c0
        exact hall (by rw [hb]; exact List.mem_cons_self c0 t)
  · rw [if_neg hl] at h
    cases hb : project_id with
    | nil =>
      rw [hb] at h
      cases h
    | cons c0 t =>
      refine ⟨c0, t, rfl, ?_⟩
      have hall := List.all_eq_true.mp (Bool.and_elim_right h) c0
      exact hall (by rw [hb]; exact List.mem_cons_self c0 t)

theorem id_char_ne_slash (c : Char) (h : is_project_id_char c = true) : c ≠ '/' := by
  intro hh
  subst hh
  cases h

theorem validate_eq_re_match (project_dir : AbsPath) (project_id : List Char) :
    _validate_project_id project_dir project_id = re_match_project_id project_id := by
  by_cases hm : re_match_project_id project_id = true
  · have hslash : ∀ c ∈ project_id ++ pstr (".json"), c ≠ '/' := by
      intro c hc
      rcases List.mem_append.mp hc with hmem | hmem
      · rcases re_match_chars project_id hm c hmem with hid | hnl
        · exact id_char_ne_slash c hid
        · subst hnl; decide
      · have : c = '.' ∨ c = 'j' ∨ c = 's' ∨ c = 'o' ∨ c = 'n' := by
          simpa [pstr] using hmem
        rcases this with rfl | rfl | rfl | rfl | rfl <;> decide
    obtain ⟨c0, t, hid, hc0⟩ := re_match_head project_id hm
    have hparse : parsePath (project_id ++ pstr (".json")) =
        ⟨false, [project_id ++ pstr (".json")]⟩ := by
      unfold parsePath
      rw [splitOnChar_no_sep '/' _ hslash]
      have hhead : (project_id ++ pstr (".json")).head? = some c0 := by
        rw [hid]
        rfl
      rw [hhead]
      have hc0s : c0 ≠ '/' := id_char_ne_slash c0 hc0
      have hne : (project_id ++ pstr (".json")) ≠ [] := by
        rw [hid]
        intro hh
        cases hh
      simp [hc0s, List.isEmpty_iff, hne]
    have hcomp_ne : project_id ++ pstr (".json") ≠ pstr (".") ∧
        project_id ++ pstr (".json") ≠ pstr ("..") := by
      constructor
      · intro hh
        have := congrArg List.length hh
        rw [hid] at this
        simp [pstr] at this
      · intro hh
        have := congrArg List.length hh
        rw [hid] at this
        simp [pstr] at this
    have hjoin : joinResolve project_dir (parsePath (project_id ++ pstr (".json"))) =
        project_dir ++ [project_id ++ pstr (".json")] := by
      rw [hparse]
      unfold joinResolve normStep
      simp [hcomp_ne.1, hcomp_ne.2]
    have hproper : project_dir ≠ project_dir ++ [project_id ++ pstr (".json")] := by
      intro hh
      have := congrArg List.length hh
      simp at this
    unfold _validate_project_id
    rw [hm, hjoin]
    simp [hproper, isPrefixL_append_self]
  · have hm' : re_match_project_id project_id = false := by
      revert hm
      cases re_match_project_id project_id <;> simp
    unfold _validate_project_id
    rw [hm']
    rfl

/-! ## Theorems for claim C5 -/

/-- Claim C5 counterexample: the id `"a\n"` contains a newline — a
character outside `[A-Za-z0-9_-]` — so the claim says `save_project`
raises InvalidInput and writes nothing; but Python's `$` matches before
a single trailing newline, so the id validates, the save succeeds, and
the round trip even returns the data. -/
theorem save_project_trailing_newline_counterexample :
    ('\n' ∈ pstr ("a\n")) ∧ is_project_id_char '\n' = false ∧
    save_project (⟨[pstr (".cli_projects")], []⟩ : ProjectStore Nat) (pstr ("a\n")) 7 =
      Except.ok ⟨[pstr (".cli_projects")], [(pstr ("a\n"), 7)]⟩ ∧
    load_project (⟨[pstr (".cli_projects")], [(pstr ("a\n"), 7)]⟩ : ProjectStore Nat)
      (pstr ("a\n")) = some 7 := by
  refine ⟨by decide, by decide, by rfl, by rfl⟩

/-- Claim C5 (amended): ids accepted by Python's anchored regex — a
non-empty run of `[A-Za-z0-9_-]`, optionally followed by one trailing
newline that `$` tolerates — round-trip through `save_project` and
`load_project` unchanged; every other string (in particular any with
`/`, `..`, or other characters outside the pattern) makes
`save_project` raise the InvalidInput error with nothing written and
makes `load_project` return nothing. -/
theorem project_id_round_trip {α : Type} (st : ProjectStore α) (project_id : List Char)
    (data : α) :
    (re_match_project_id project_id = true →
      save_project st project_id data =
        Except.ok { st with files := alistSet st.files project_id data } ∧
      load_project { st with files := alistSet st.files project_id data } project_id =
        some data) ∧
    (re_match_project_id project_id = false →
      save_project st project_id data =
        Except.error (pstr ("Invalid project ID: ") ++ project_id) ∧
      load_project st project_id = none) := by
  constructor
  · intro hm
    have hv : _validate_project_id st.project_dir project_id = true := by
      rw [validate_eq_re_match]
      exact hm
    constructor
    · unfold save_project
      rw [hv]
      simp
    · unfold load_project
      rw [validate_eq_re_match, hm]
      simp [alistFind_alistSet_self]
  · intro hm
    have hv : _validate_project_id st.project_dir project_id = false := by
      rw [validate_eq_re_match]
      exact hm
    constructor
    · unfold save_project
      rw [hv]
      simp
    · unfold load_project
      rw [hv]
      simp

/-- Claim C5 witness: the round-trip theorem applied at the concrete
valid id `proj_A-1` and the concrete invalid id `../etc` over an empty
store holding natural-number payloads. -/
theorem project_id_round_trip_witness :
    (save_project (⟨[pstr (".cli_projects")], []⟩ : ProjectStore Nat) (pstr ("proj_A-1")) 7 =
        Except.ok ⟨[pstr (".cli_projects")], alistSet [] (pstr ("proj_A-1")) 7⟩ ∧
      load_project (⟨[pstr (".cli_projects")], alistSet [] (pstr ("proj_A-1")) 7⟩ :
          ProjectStore Nat) (pstr ("proj_A-1")) = some 7) ∧
    (save_project (⟨[pstr (".cli_projects")], []⟩ : ProjectStore Nat) (pstr ("../etc")) 7 =
        Except.error (pstr ("Invalid project ID: ") ++ pstr ("../etc")) ∧
      load_project (⟨[pstr (".cli_projects")], []⟩ : ProjectStore Nat) (pstr ("../etc")) =
        none) :=
  ⟨(project_id_round_trip (⟨[pstr (".cli_projects")], []⟩ : ProjectStore Nat)
      (pstr ("proj_A-1")) 7).1 (by decide),
    (project_id_round_trip (⟨[pstr (".cli_projects")], []⟩ : ProjectStore Nat)
      (pstr ("../etc")) 7).2 (by decide)⟩

/-! ## Step executor (`src/zeki-oroto-cli/main.py`, class StepExecutor) -/

/-- Observable events of the step phase of `execute_complex_task`. -/
inductive StepEvent where
  | panel (i : Nat)
  | generateSubsteps (i : Nat)
  | runSubsteps (i : Nat)
  | snapshot (i : Nat)
  | persistStep (i : Nat)
  | nameErrorRaised
deriving DecidableEq

/-- Python `range(a, b)`. -/
def pyRange (a b : Nat) : List Nat :=
  List.range' a (b - a)

/-- Trace of lines 1064-1122 of `src/zeki-oroto-cli/main.py`
(`execute_complex_task`), embedded exactly as indented in the source:
the `for i in range(current_step_completed + 1, total_steps + 1)` loop
body consists only of the step panel print (lines 1066-1067); the
sub-step generation, the parallel sub-step execution, the snapshot and
the step-level persist (lines 1068-1122) sit at the loop's own
indentation level, so they run once after the loop with `i` bound to
its final value — and raise `NameError` on `str(i)` when the loop was
empty. -/
def execute_complex_task_step_phase (current_step_completed total_steps : Nat)
    (substeps_cached : Nat → Bool) : List StepEvent :=
  let r := pyRange (current_step_completed + 1) (total_steps + 1)
  let panels := r.map StepEvent.panel
  match r.getLast? with
  | none => panels ++ [StepEvent.nameErrorRaised]
  | some i =>
    panels ++
      (if substeps_cached i then [] else [StepEvent.generateSubsteps i]) ++
      [StepEvent.runSubsteps i, StepEvent.snapshot i, StepEvent.persistStep i]

/-- The plan steps whose sub-steps a trace actually runs. -/
def substepsRunSteps (trace : List StepEvent) : List Nat :=
  trace.filterMap (fun e =>
    match e with
    | StepEvent.runSubsteps i => some i
    | _ => none)

/-- The plan steps whose sub-step lists a trace generates. -/
def substepsGeneratedSteps (trace : List StepEvent) : List Nat :=
  trace.filterMap (fun e =>
    match e with
    | StepEvent.generateSubsteps i => some i
    | _ => none)

/-- Claim C1 evaluation at the failing input: for a fresh two-step plan
(`current_step_completed = 0`, `total_steps = 2`, nothing cached) the
claim requires sub-steps to be generated and run for steps 1 and 2 in
order, but the mis-indented loop generates and runs sub-steps only for
step 2 — step 1 never executes. -/
theorem step_order_code_bug_eval :
    substepsRunSteps (execute_complex_task_step_phase 0 2 (fun _ => false)) = [2] ∧
    substepsGeneratedSteps (execute_complex_task_step_phase 0 2 (fun _ => false)) = [2] ∧
    pyRange 1 3 = [1, 2] ∧
    substepsRunSteps (execute_complex_task_step_phase 0 2 (fun _ => false)) ≠ pyRange 1 3 := by
  refine ⟨by decide, by decide, by decide, by decide⟩

/-- Top-level function names defined in `src/thinking_python.py` (the
helper module `_run_substep` imports from). -/
def thinking_python_top_level_defs : List (List Char) :=
  [pstr ("break_down_task"), pstr ("validate_file_path"), pstr ("chunk_data"),
   pstr ("merge_results"), pstr ("create_backup_config"), pstr ("validate_step_completion"),
   pstr ("estimate_task_complexity"), pstr ("sanitize_input"),
   pstr ("create_project_structure"), pstr ("update_code_section"),
   pstr ("create_version_snapshot"), pstr ("validate_project_consistency"),
   pstr ("prevent_hallucination_in_long_tasks")]

/-- Names imported by `StepExecutor._run_substep` at
`src/zeki-oroto-cli/main.py` line 799. -/
def run_substep_import_names : List (List Char) :=
  [pstr ("prevent_hallucination_in_long_tasks"), pstr ("classify_defects")]

/-- Whether that import statement succeeds: Python raises `ImportError`
unless every imported name is defined in the module. -/
def run_substep_import_ok : Bool :=
  run_substep_import_names.all (fun n =>
    thinking_python_top_level_defs.any (fun m => decide (m = n)))

/-- Observable outcome of one `_run_substep` call: how many AI Client
calls it made, whether it raised `ImportError`, and whether a retry
happened. -/
structure SubstepOutcome where
  ai_calls : Nat
  import_error : Bool
  retried : Bool
deriving DecidableEq

/-- Embedding of the AI-call structure of `StepExecutor._run_substep`
from `src/zeki-oroto-cli/main.py` lines 795-952: the function first
executes `from thinking_python import prevent_hallucination_in_long_tasks,
classify_defects`, which raises before any AI call when a name is
missing; otherwise one AI call is made, and — when the response is
non-empty and the parser pass reports errors — exactly one retry call
follows (`parse_errors` stands for the Response Parser's error list for
a given response). -/
def _run_substep (first_response : List Char)
    (parse_errors : List Char → List (List Char)) : SubstepOutcome :=
  if ¬ run_substep_import_ok then ⟨0, true, false⟩
  else if first_response.isEmpty then ⟨1, false, false⟩
  else if (parse_errors first_response).isEmpty then ⟨1, false, false⟩
  else ⟨2, false, true⟩

/-- Claim C2 evaluation at the failing input: `classify_defects` is
imported by `_run_substep` but defined nowhere in
`src/thinking_python.py`, so the import fails and every sub-step raises
`ImportError` after zero AI Client calls — in particular a sub-step
whose first parser pass would report errors never issues the one
additional call the claim requires. -/
theorem retry_on_error_import_bug :
    run_substep_import_ok = false ∧
    pstr ("classify_defects") ∈ run_substep_import_names ∧
    pstr ("classify_defects") ∉ thinking_python_top_level_defs ∧
    ∀ parse_errors : List Char → List (List Char),
      (_run_substep (pstr ("CREATE_FOLDER: app")) parse_errors).ai_calls = 0 ∧
      (_run_substep (pstr ("CREATE_FOLDER: app")) parse_errors).import_error = true := by
  refine ⟨by decide, by decide, by decide, ?_⟩
  intro parse_errors
  exact ⟨rfl, rfl⟩

/-! ## Key store (`src/zeki-oroto-cli/key_store.py`) -/

/-- Embedding of the loop of `KeyStore._xor(data, key)`: byte `i` of the
data is XORed with byte `i mod len(key)` of the key; the index argument
threads the running position. -/
def xorCycle (key : List Nat) : Nat → List Nat → List Nat
  | _, [] => []
  | i, b :: rest => (b ^^^ key.getD (i % key.length) 0) :: xorCycle key (i + 1) rest

/-- Embedding of `KeyStore._xor(data, key)`. -/
def _xor (data key : List Nat) : List Nat :=
  xorCycle key 0 data

/-- Character of the standard base64 alphabet at a sextet value, as
`base64.b64encode` uses it. -/
def b64char (n : Nat) : Char :=
  if n < 26 then Char.ofNat (65 + n)
  else if n < 52 then Char.ofNat (71 + n)
  else if n < 62 then Char.ofNat (n - 4)
  else if n = 62 then '+'
  else '/'

/-- Sextet value of a base64 alphabet character, as `base64.b64decode`
reads it. -/
def b64val (ch : Char) : Nat :=
  let n := ch.toNat
  if 65 ≤ n && n ≤ 90 then n - 65
  else if 97 ≤ n && n ≤ 122 then n - 71
  else if 48 ≤ n && n ≤ 57 then n + 4
  else if ch = '+' then 62
  else 63

/-- Embedding of `base64.b64encode` on byte lists: three bytes become
four sextet characters, with `=` padding for a short final group. -/
def b64encodeBytes : List Nat → List Char
  | [] => []
  | [a] => [b64char (a / 4), b64char (a % 4 * 16), '=', '=']
  | [a, b] => [b64char (a / 4), b64char (a % 4 * 16 + b / 16), b64char (b % 16 * 4), '=']
  | a :: b :: c :: rest =>
    b64char (a / 4) :: b64char (a % 4 * 16 + b / 16) :: b64char (b % 16 * 4 + c / 64) ::
      b64char (c % 64) :: b64encodeBytes rest

/-- Embedding of `base64.b64decode` on the strings `b64encodeBytes`
produces: four characters yield three bytes, fewer at `=` padding. -/
def b64decodeBytes : List Char → List Nat
  | c0 :: c1 :: c2 :: c3 :: rest =>
    let s0 := b64val c0
    let s1 := b64val c1
    if c2 = '=' then [s0 * 4 + s1 / 16]
    else
      let s2 := b64val c2
      if c3 = '=' then [s0 * 4 + s1 / 16, s1 % 16 * 16 + s2 / 4]
      else
        (s0 * 4 + s1 / 16) :: (s1 % 16 * 16 + s2 / 4) :: (s2 % 4 * 64 + b64val c3) ::
          b64decodeBytes rest
  | _ => []

theorem b64val_b64char : ∀ n, n < 64 → b64val (b64char n) = n := by decide

theorem b64char_ne_pad : ∀ n, n < 64 → b64char n ≠ '=' := by decide

theorem b64_roundtrip : ∀ l : List Nat, (∀ b ∈ l, b < 256) →
    b64decodeBytes (b64encodeBytes l) = l
  | [], _ => rfl
  | [a], h => by
    have ha : a < 256 := h a (List.mem_singleton.mpr rfl)
    show b64decodeBytes [b64char (a / 4), b64char (a % 4 * 16), '=', '='] = [a]
    unfold b64decodeBytes
    rw [if_pos rfl, b64val_b64char (a / 4) (by omega), b64val_b64char (a % 4 * 16) (by omega)]
    simp only [List.cons.injEq, and_true]
    omega
  | [a, b], h => by
    have ha : a < 256 := h a (List.mem_cons_self a [b])
    have hb : b < 256 := h b (List.mem_cons_of_mem a (List.mem_singleton.mpr rfl))
    show b64decodeBytes
        [b64char (a / 4), b64char (a % 4 * 16 + b / 16), b64char (b % 16 * 4), '='] = [a, b]
    unfold b64decodeBytes
    rw [if_neg (b64char_ne_pad (b % 16 * 4) (by omega)), if_pos rfl,
      b64val_b64char (a / 4) (by omega), b64val_b64char (a % 4 * 16 + b / 16) (by omega),
      b64val_b64char (b % 16 * 4) (by omega)]
    simp only [List.cons.injEq, and_true]
    refine ⟨by omega, by omega⟩
  | a :: b :: c :: rest, h => by
    have ha : a < 256 := h a (List.mem_cons_self a (b :: c :: rest))
    have hb : b < 256 := h b (List.mem_cons_of_mem a (List.mem_cons_self b (c :: rest)))
    have hc : c < 256 :=
      h c (List.mem_cons_of_mem a (List.mem_cons_of_mem b (List.mem_cons_self c rest)))
    have ih := b64_roundtrip rest (fun x hx =>
      h x (List.mem_cons_of_mem a (List.mem_cons_of_mem b (List.mem_cons_of_mem c hx))))
    show b64decodeBytes
        (b64char (a / 4) :: b64char (a % 4 * 16 + b / 16) :: b64char (b % 16 * 4 + c / 64) ::
          b64char (c % 64) :: b64encodeBytes rest) = a :: b :: c :: rest
    unfold b64decodeBytes
    rw [if_neg (b64char_ne_pad (b % 16 * 4 + c / 64) (by omega)),
      if_neg (b64char_ne_pad (c % 64) (by omega)),
      b64val_b64char (a / 4) (by omega), b64val_b64char (a % 4 * 16 + b / 16) (by omega),
      b64val_b64char (b % 16 * 4 + c / 64) (by omega), b64val_b64char (c % 64) (by omega), ih]
    simp only [List.cons.injEq, and_true]
    refine ⟨by omega, by omega, by omega⟩

theorem xorCycle_involution (key : List Nat) (data : List Nat) :
    ∀ i, xorCycle key i (xorCycle key i data) = data := by
  induction data with
  | nil => intro i; rfl
  | cons b rest ih =>
    intro i
    show (b ^^^ key.getD (i % key.length) 0 ^^^ key.getD (i % key.length) 0) ::
        xorCycle key (i + 1) (xorCycle key (i + 1) rest) = b :: rest
    rw [ih (i + 1), Nat.xor_assoc, Nat.xor_self, Nat.xor_zero]

theorem xorCycle_lt (key : List Nat) (hk : key ≠ []) (hkb : ∀ b ∈ key, b < 256) :
    ∀ (data : List Nat), (∀ b ∈ data, b < 256) →
    ∀ i, ∀ b ∈ xorCycle key i data, b < 256 := by
  intro data
  induction data with
  | nil => intro _ i b hb; cases hb
  | cons x rest ih =>
    intro hd i b hb
    unfold xorCycle at hb
    rcases List.mem_cons.mp hb with hh | hh
    · have hx : x < 256 := hd x (List.mem_cons_self x rest)
      have hklen : 0 < key.length := List.length_pos.mpr hk
      have hmem : key.getD (i % key.length) 0 ∈ key := by
        have hlt : i % key.length < key.length := Nat.mod_lt i hklen
        rw [List.getD_eq_getElem key 0 hlt]
        exact List.getElem_mem hlt
      have hkx : key.getD (i % key.length) 0 < 256 := hkb _ hmem
      subst hh
      have h256 : (256 : Nat) = 2 ^ 8 := by norm_num
      rw [h256] at hx hkx ⊢
      exact Nat.xor_lt_two_pow hx hkx
    · exact ih (fun y hy => hd y (List.mem_cons_of_mem x hy)) (i + 1) b hh

/-- Embedding of `KeyStore.encrypt(plain_text)` from
`src/zeki-oroto-cli/key_store.py` lines 62-66, at the byte level: the
UTF-8 bytes of the plaintext are XORed against the derived key cycled
over its length, then base64-encoded. The derived key (SHA-256 of
hostname, username and the salt file) is a parameter; its digest is
always 32 bytes, each below 256. -/
def encrypt (key plain : List Nat) : List Char :=
  b64encodeBytes (_xor plain key)

/-- Embedding of `KeyStore.decrypt(token)` from
`src/zeki-oroto-cli/key_store.py` lines 68-72, at the byte level. -/
def decrypt (key : List Nat) (token : List Char) : List Nat :=
  _xor (b64decodeBytes token) key

/-- The key-store record persisted in `key_store.db`. -/
structure KeyStoreData where
  provider : Option (List Char)
  encrypted_api_key : Option (List Char)
  use_user_key : Bool
deriving DecidableEq

/-- Embedding of `KeyStore.set_user_key(api_key, provider="openrouter")`
from `src/zeki-oroto-cli/key_store.py` lines 96-104: an empty key
raises `ValueError`, otherwise the record stores the encrypted key and
sets the use-user-key flag. -/
def set_user_key (key : List Nat) (store : KeyStoreData) (api_key : List Nat)
    (provider : List Char) : Except (List Char) KeyStoreData :=
  if api_key.isEmpty then Except.error (pstr ("API key boş olamaz"))
  else
    Except.ok { store with
      provider := some provider
      encrypted_api_key := some (encrypt key api_key)
      use_user_key := true }

/-- Embedding of `KeyStore.get_user_key()` from
`src/zeki-oroto-cli/key_store.py` lines 110-118: no or empty stored
token yields nothing, otherwise the decrypted token. -/
def get_user_key (key : List Nat) (store : KeyStoreData) : Option (List Nat) :=
  match store.encrypted_api_key with
  | none => none
  | some token => if token.isEmpty then none else some (decrypt key token)

theorem b64encodeBytes_ne_nil (l : List Nat) (h : l ≠ []) : b64encodeBytes l ≠ [] := by
  match l with
  | [] => exact absurd rfl h
  | [a] => simp [b64encodeBytes]
  | [a, b] => simp [b64encodeBytes]
  | a :: b :: c :: rest => simp [b64encodeBytes]

theorem xorCycle_ne_nil (key : List Nat) (i : Nat) (l : List Nat) (h : l ≠ []) :
    xorCycle key i l ≠ [] := by
  match l with
  | [] => exact absurd rfl h
  | b :: rest => simp [xorCycle]

/-! ## Theorems for claim C10 -/

/-- Claim C10: the key obfuscation round-trips — with the same derived
key (same salt file, hostname and username; SHA-256 digests are
non-empty byte strings) `decrypt` inverts `encrypt` on every byte
string, and `get_user_key` returns exactly the key most recently stored
by `set_user_key`. -/
theorem key_obfuscation_round_trip (key data : List Nat) (store : KeyStoreData)
    (provider : List Char) (hk : key ≠ []) (hkb : ∀ b ∈ key, b < 256)
    (hdb : ∀ b ∈ data, b < 256) :
    decrypt key (encrypt key data) = data ∧
    (data ≠ [] →
      set_user_key key store data provider =
        Except.ok { store with
          provider := some provider
          encrypted_api_key := some (encrypt key data)
          use_user_key := true } ∧
      get_user_key key { store with
          provider := some provider
          encrypted_api_key := some (encrypt key data)
          use_user_key := true } = some data) := by
  have hround : decrypt key (encrypt key data) = data := by
    unfold decrypt encrypt
    rw [b64_roundtrip (_xor data key)
      (xorCycle_lt key hk hkb data hdb 0)]
    exact xorCycle_involution key data 0
  refine ⟨hround, fun hne => ⟨?_, ?_⟩⟩
  · unfold set_user_key
    rw [if_neg (by simp [List.isEmpty_iff, hne])]
  · unfold get_user_key
    simp only []
    rw [if_neg (by
      simp [List.isEmpty_iff]
      exact b64encodeBytes_ne_nil (_xor data key)
        (xorCycle_ne_nil key 0 data hne))]
    rw [hround]

/-- Claim C10 witness: the round-trip theorem applied at the concrete
two-byte derived key `[1, 2]` and the concrete plaintext bytes
`[65, 66, 67]` over a fresh empty store record. -/
theorem key_obfuscation_round_trip_witness :
    decrypt [1, 2] (encrypt [1, 2] [65, 66, 67]) = [65, 66, 67] ∧
    ([65, 66, 67] ≠ ([] : List Nat) →
      set_user_key [1, 2] ⟨none, none, false⟩ [65, 66, 67] (pstr ("openrouter")) =
        Except.ok ⟨some (pstr ("openrouter")), some (encrypt [1, 2] [65, 66, 67]), true⟩ ∧
      get_user_key [1, 2]
        ⟨some (pstr ("openrouter")), some (encrypt [1, 2] [65, 66, 67]), true⟩ =
        some [65, 66, 67]) :=
  key_obfuscation_round_trip [1, 2] [65, 66, 67] ⟨none, none, false⟩ (pstr ("openrouter"))
    (by decide) (by decide) (by decide)

end Oroto
